import Mathlib

/-!
A shallow embedding of the Puffs parser (`lang/parse/parse.go`), the
syntax-analysis stage of the Puffs compiler front end.  The parser consumes a
pre-tokenized stream (a Go slice of `token.Token`) and produces an AST,
failing with a positioned error on malformed input.

Modelling conventions:

* Go's `t.ID` (a packed uint32 naming an interned symbol plus classification
  bits) is modelled by the inductive `TokID`.  In the Go token package every
  occurrence of the same symbol carries the same `ID` and `ID.Key()` is
  injective on symbols, so the `ID`/`Key` distinction collapses here: key
  comparison and ID comparison are both `TokID` equality.
* The token package itself (classification predicates, operator-form lookups,
  the intern map, `Unescape`) and the `base38` package are not part of the
  source under verification; they are modelled from the spec (see the
  `Modelled from the spec:` doc comments below).  The intern map is folded
  into the tokens: identifier/literal tokens carry their display text.
* The AST package is likewise external: the spec prescribes a closed tagged
  variant over the node kinds, each node carrying a source filename+line,
  which the inductive `Node` realises.  Constructor helpers `newExpr`,
  `newVar`, ... mirror the `a.NewExpr`, `a.NewVar`, ... calls made by the
  parser.
* Go's mutating receiver `p *parser` becomes explicit state passing of
  `ParserState`; `fmt.Errorf` results become the structured `Err`
  (`problem` string plus optional `filename:line` position).
* The mutually recursive parse methods take a fuel argument (Go recursion is
  unbounded by construction, an accepted non-goal of the spec); running out
  of fuel yields a distinguished artificial error and no theorem below
  depends on a particular fuel value being sufficient.
-/

/-- Token IDs: one constructor per interned symbol class used by the parser.
Keyword, punctuation and operator tokens are atoms; identifier, string
literal and numeric literal tokens carry their interned display text.  A
string-literal token carries the raw source text including its quotes, as in
the Go intern map. -/
inductive TokID where
  | packageid | use_ | pub | pri | const_ | func_ | error_ | suspension | status_ | struct_
  | semicolon | eq | dollar | exclam | question
  | openParen | closeParen | openCurly | closeCurly | openBracket | closeBracket
  | comma | dot | dotdot | colon | ptr
  | assert_ | pre | inv | post | via
  | break_ | continue_ | if_ | else_ | iterate | return_ | var_ | while_ | try_ | as_
  | and_ | or_ | not_ | plus | star | plusEq
  | ident (s : String)
  | strLit (s : String)
  | numLit (s : String)
deriving DecidableEq, Repr

/-- Modelled from the spec: the token package's is-string-literal predicate. -/
def TokID.isStrLiteral : TokID → Bool
  | .strLit _ => true
  | _ => false

/-- Modelled from the spec: the token package's is-identifier predicate. -/
def TokID.isIdent : TokID → Bool
  | .ident _ => true
  | _ => false

/-- Modelled from the spec: the token package's is-literal predicate (numeric
literals). -/
def TokID.isLiteral : TokID → Bool
  | .numLit _ => true
  | _ => false

/-- Modelled from the spec: the token package's is-unary-op predicate. -/
def TokID.isUnaryOp : TokID → Bool
  | .not_ => true
  | _ => false

/-- Modelled from the spec: the token package's is-binary-op predicate (the
operators used in this development; `as` is the cast operator whose right
hand side is a type expression). -/
def TokID.isBinaryOp : TokID → Bool
  | .plus | .star | .and_ | .or_ | .as_ => true
  | _ => false

/-- Modelled from the spec: the token package's is-associative-op predicate
(an associative operator's repeated consecutive use folds into one n-ary
node). -/
def TokID.isAssociativeOp : TokID → Bool
  | .plus | .star | .and_ | .or_ => true
  | _ => false

/-- Modelled from the spec: the token package's is-assignment-op predicate. -/
def TokID.isAssign : TokID → Bool
  | .eq | .plusEq => true
  | _ => false

/-- Modelled from the spec: the reserved/built-in identifiers that may not be
reused as func/struct receiver or name. -/
def builtInIdents : List String :=
  ["in", "out", "u8", "u16", "u32", "u64", "bool", "true", "false"]

/-- Modelled from the spec: the token package's is-built-in predicate. -/
def TokID.isBuiltIn : TokID → Bool
  | .ident s => builtInIdents.contains s
  | _ => false

/-- Modelled from the spec: the intern map's display text for a token
(`tm.ByID` / `tm.ByKey` / `tm.ByToken` collapse to this in the embedding). -/
def TokID.text : TokID → String
  | .packageid => "packageid"
  | .use_ => "use"
  | .pub => "pub"
  | .pri => "pri"
  | .const_ => "const"
  | .func_ => "func"
  | .error_ => "error"
  | .suspension => "suspension"
  | .status_ => "status"
  | .struct_ => "struct"
  | .semicolon => ";"
  | .eq => "="
  | .dollar => "$"
  | .exclam => "!"
  | .question => "?"
  | .openParen => "("
  | .closeParen => ")"
  | .openCurly => "\x7b"
  | .closeCurly => "\x7d"
  | .openBracket => "["
  | .closeBracket => "]"
  | .comma => ","
  | .dot => "."
  | .dotdot => ".."
  | .colon => ":"
  | .ptr => "ptr"
  | .assert_ => "assert"
  | .pre => "pre"
  | .inv => "inv"
  | .post => "post"
  | .via => "via"
  | .break_ => "break"
  | .continue_ => "continue"
  | .if_ => "if"
  | .else_ => "else"
  | .iterate => "iterate"
  | .return_ => "return"
  | .var_ => "var"
  | .while_ => "while"
  | .try_ => "try"
  | .as_ => "as"
  | .and_ => "and"
  | .or_ => "or"
  | .not_ => "not"
  | .plus => "+"
  | .star => "*"
  | .plusEq => "+="
  | .ident s => s
  | .strLit s => s
  | .numLit s => s

/-- Display text of an optional token (`peek1` on an empty stream yields Go's
zero ID, whose intern-map text is empty). -/
def optText : Option TokID → String
  | some x => x.text
  | none => ""

/-- Go's `%q` verb as used in the parser's diagnostics. -/
def quoted (s : String) : String := "\"" ++ s ++ "\""

/-- Expression/type-expression operator IDs: a plain token ID, one of the
three operator forms produced by the token package's form lookups, or Go's
zero ID. -/
inductive EID where
  | zero
  | tid (x : TokID)
  | unaryF (x : TokID)
  | binaryF (x : TokID)
  | assocF (x : TokID)
deriving DecidableEq, Repr

/-- Modelled from the spec: the token package's canonical-unary-form lookup
(zero when the token has no unary form). -/
def TokID.unaryForm (x : TokID) : EID :=
  if x.isUnaryOp then .unaryF x else .zero

/-- Modelled from the spec: the token package's canonical-binary-form lookup
(zero when the token has no binary form). -/
def TokID.binaryForm (x : TokID) : EID :=
  if x.isBinaryOp then .binaryF x else .zero

/-- Modelled from the spec: the token package's associative-form lookup
(zero when the token has no associative form). -/
def TokID.associativeForm (x : TokID) : EID :=
  if x.isAssociativeOp then .assocF x else .zero

/-- AST node flags (`a.Flags`): a bitmask in Go, a record of booleans here. -/
structure Flags where
  public_ : Bool := false
  impure : Bool := false
  suspendible : Bool := false
  callImpure : Bool := false
  callSuspendible : Bool := false
deriving DecidableEq, Repr

/-- The AST: a closed tagged variant over the node kinds, each carrying a
source filename and line (defaulted to `""`/`0` by constructors that do not
set them; statements are stamped after parsing). Field order mirrors the
corresponding `a.New...` constructor arguments. -/
inductive Node where
  | file (filename : String) (topLevelDecls : List Node)
  | packageidDecl (filename : String) (line : Nat) (path : TokID)
  | useDecl (filename : String) (line : Nat) (path : TokID)
  | constDecl (flags : Flags) (filename : String) (line : Nat) (id : TokID)
      (typ : Node) (value : Node)
  | funcDecl (flags : Flags) (filename : String) (line : Nat)
      (receiver : Option TokID) (name : TokID) (inParams : Node) (outParams : Node)
      (asserts : List Node) (body : List Node)
  | statusDecl (flags : Flags) (filename : String) (line : Nat)
      (keyword : TokID) (message : TokID)
  | structDecl (flags : Flags) (filename : String) (line : Nat)
      (name : TokID) (fields : List Node)
  | field (name : TokID) (typ : Node) (defaultValue : Option Node)
  | typeExpr (id0 : EID) (id1 : Option TokID) (lhs mhs rhs : Option Node)
  | expr (flags : Flags) (filename : String) (line : Nat) (id0 : EID)
      (id1 : Option TokID) (lhs mhs rhs : Option Node) (args : List Node)
  | assert (filename : String) (line : Nat) (keyword : TokID) (condition : Node)
      (reason : Option TokID) (args : List Node)
  | arg (name : TokID) (value : Node)
  | varDecl (filename : String) (line : Nat) (op : Option TokID) (id : TokID)
      (typ : Node) (value : Option Node)
  | assign (filename : String) (line : Nat) (op : TokID) (lhs rhs : Node)
  | jump (filename : String) (line : Nat) (keyword : TokID) (label : Option TokID)
  | ifStmt (filename : String) (line : Nat) (condition : Node)
      (elseIf : Option Node) (bodyIfTrue bodyIfFalse : List Node)
  | iterateStmt (filename : String) (line : Nat) (label : Option TokID)
      (unroll : Node) (vars : List Node) (asserts : List Node) (body : List Node)
  | whileStmt (filename : String) (line : Nat) (label : Option TokID)
      (condition : Node) (asserts : List Node) (body : List Node)
  | returnStmt (filename : String) (line : Nat) (value : Option Node)

/-- `a.NewExpr(flags, id0, id1, lhs, mhs, rhs, args)` (filename/line unset). -/
def newExpr (flags : Flags) (id0 : EID) (id1 : Option TokID)
    (lhs mhs rhs : Option Node) (args : List Node) : Node :=
  .expr flags "" 0 id0 id1 lhs mhs rhs args

/-- `a.NewTypeExpr(id0, id1, lhs, mhs, rhs)`. -/
def newTypeExpr (id0 : EID) (id1 : Option TokID) (lhs mhs rhs : Option Node) : Node :=
  .typeExpr id0 id1 lhs mhs rhs

/-- `n.Raw().SetFilenameLine(filename, line)`: the single line-stamping pass
applied right after a statement is parsed.  Nodes whose Go struct fields it
would set are updated; the function is only ever applied to statement nodes
and (for `iterate`) their declared variables. -/
def setFilenameLine (n : Node) (filename : String) (line : Nat) : Node :=
  match n with
  | .file f d => .file f d
  | .packageidDecl _ _ p => .packageidDecl filename line p
  | .useDecl _ _ p => .useDecl filename line p
  | .constDecl fl _ _ i t v => .constDecl fl filename line i t v
  | .funcDecl fl _ _ r n i o a b => .funcDecl fl filename line r n i o a b
  | .statusDecl fl _ _ k m => .statusDecl fl filename line k m
  | .structDecl fl _ _ n f => .structDecl fl filename line n f
  | .field n t d => .field n t d
  | .typeExpr a b c d e => .typeExpr a b c d e
  | .expr fl _ _ i0 i1 l m r a => .expr fl filename line i0 i1 l m r a
  | .assert _ _ k c re a => .assert filename line k c re a
  | .arg n v => .arg n v
  | .varDecl _ _ o i t v => .varDecl filename line o i t v
  | .assign _ _ o l r => .assign filename line o l r
  | .jump _ _ k l => .jump filename line k l
  | .ifStmt _ _ c e t f => .ifStmt filename line c e t f
  | .iterateStmt _ _ l u v a b => .iterateStmt filename line l u v a b
  | .whileStmt _ _ l c a b => .whileStmt filename line l c a b
  | .returnStmt _ _ v => .returnStmt filename line v

/-- `a.Assert.Keyword()` (the parser only applies it to assert nodes). -/
def assertKeyword : Node → TokID
  | .assert _ _ k _ _ _ => k
  | _ => .assert_

/-- `a.Expr.ID0()` (the parser only applies it to expression nodes). -/
def Node.exprID0 : Node → EID
  | .expr _ _ _ i0 _ _ _ _ _ => i0
  | _ => .zero

/-- `a.Expr.ID1()`. -/
def Node.exprID1 : Node → Option TokID
  | .expr _ _ _ _ i1 _ _ _ _ => i1
  | _ => none

/-- `a.Expr.LHS()`. -/
def Node.exprLHS : Node → Option Node
  | .expr _ _ _ _ _ l _ _ _ => l
  | _ => none

/-- `a.Expr.MHS()`. -/
def Node.exprMHS : Node → Option Node
  | .expr _ _ _ _ _ _ m _ _ => m
  | _ => none

/-- `a.Expr.RHS()`. -/
def Node.exprRHS : Node → Option Node
  | .expr _ _ _ _ _ _ _ r _ => r
  | _ => none

/-- `a.Expr.Args()`. -/
def Node.exprArgs : Node → List Node
  | .expr _ _ _ _ _ _ _ _ a => a
  | _ => []

/-- `n.Raw().Flags()`. -/
def Node.nodeFlags : Node → Flags
  | .expr fl _ _ _ _ _ _ _ _ => fl
  | _ => {}

/-- Modelled from the spec: the AST pretty-printer `call.String(tm)`, used by
the parser only inside the try-misuse diagnostic text; abstracted to the text
of the expression's leaf token when it is a leaf. -/
def exprDebugText (n : Node) : String :=
  match n.exprID1 with
  | some x => x.text
  | none => "expression"

/-- A token: classification/intern ID plus source line. -/
structure Token where
  id : TokID
  line : Nat
deriving DecidableEq, Repr

/-- A parse error: the problem text (Go's message up to the ` at file:line`
suffix) plus the optional position; `pos = none` models a `fmt.Errorf`
message with no ` at %s:%d` suffix. -/
structure Err where
  problem : String
  pos : Option (String × Nat)
deriving DecidableEq, Repr

/-- The parser state: the remaining token stream, the filename, and the line
of the last source token (used for positions once the stream is
exhausted). -/
structure ParserState where
  src : List Token
  filename : String
  lastLine : Nat
deriving DecidableEq, Repr

/-- `p.line()`. -/
def ParserState.line (s : ParserState) : Nat :=
  match s.src with
  | t :: _ => t.line
  | [] => s.lastLine

/-- `p.peek1()`: `none` models Go's zero ID on an exhausted stream. -/
def ParserState.peek1 (s : ParserState) : Option TokID :=
  match s.src with
  | t :: _ => some t.id
  | [] => none

/-- `p.src = p.src[1:]`. -/
def ParserState.advance (s : ParserState) : ParserState :=
  { s with src := s.src.tail }

/-- A positioned parse error at the parser's current position. -/
def perr (s : ParserState) (problem : String) : Err :=
  ⟨problem, some (s.filename, s.line)⟩

/-- The two `parse: %q is not a valid packageid` diagnostics: the only
`fmt.Errorf` calls in the parser with no ` at %s:%d` suffix besides the
internal-error ones. -/
def packageidErr (raw : String) : Err :=
  ⟨"parse: " ++ quoted raw ++ " is not a valid packageid", none⟩

/-- The artificial out-of-fuel error of the embedding (Go recursion is
unbounded); positioned so that it never witnesses an unpositioned error. -/
def fuelErr (s : ParserState) : Err :=
  ⟨"embedding: out of fuel", some (s.filename, s.line)⟩

/-- Modelled from the spec: `t.Unescape` on a string-literal's raw text;
strips the surrounding quotes. -/
def unescape (raw : String) : Option String :=
  match raw.data with
  | [] => none
  | [_] => none
  | c :: rest =>
    if c = '"' ∧ rest.getLast? = some '"' then some ⟨rest.dropLast⟩ else none

/-- Modelled from the spec: the external `base38` package's legal code
points. -/
def base38ValidChar (c : Char) : Bool :=
  (('a' ≤ c ∧ c ≤ 'z') ∨ ('0' ≤ c ∧ c ≤ '9') ∨ c = '.')

/-- Modelled from the spec: the external package-id validator
`base38.Encode`; encodes a short string over the base-38 alphabet to an
integer, failing on illegal code points, the empty string or overlong
strings.  The encoded value is zero exactly for the empty string. -/
def base38Encode (s : String) : Option Nat :=
  if s.data.length ≤ 6 ∧ s.data.all base38ValidChar then
    some (s.data.foldl (fun acc c => acc * 38 + (c.toNat + 1)) 0)
  else
    none

/-- `p.parseIdent()`. -/
def parseIdent (s : ParserState) : Except Err (TokID × ParserState) :=
  match s.src with
  | [] => .error (perr s "parse: expected identifier")
  | x :: rest =>
    if x.id.isIdent then
      .ok (x.id, { s with src := rest })
    else
      .error (perr s ("parse: expected identifier, got " ++ quoted x.id.text))

/-- `p.parseQualifiedIdent()`: parses `foo.bar` or `bar`; the first component
is `none` for an unqualified name (Go's zero ID). -/
def parseQualifiedIdent (s : ParserState) :
    Except Err ((Option TokID × TokID) × ParserState) :=
  match parseIdent s with
  | .error e => .error e
  | .ok (x, s) =>
    if s.peek1 = some .dot then
      match parseIdent s.advance with
      | .error e => .error e
      | .ok (y, s) => .ok ((some x, y), s)
    else
      .ok ((none, x), s)

/-- `p.parseLabel()`: an optional `':' ident` suffix. -/
def parseLabel (s : ParserState) : Except Err (Option TokID × ParserState) :=
  if s.peek1 = some .colon then
    match parseIdent s.advance with
    | .error e => .error e
    | .ok (x, s) => .ok (some x, s)
  else
    .ok (none, s)

/-- The loop body of `p.assertsSorted`, threading the `seenInv`/`seenPost`
booleans. -/
def assertsSortedLoop (s : ParserState) (seenInv seenPost : Bool) :
    List Node → Except Err Unit
  | [] => .ok ()
  | a :: rest =>
    if assertKeyword a = .assert_ then
      .error (perr s ("parse: assertion chain cannot contain \"assert\", " ++
        "only \"pre\", \"inv\" and \"post\""))
    else if assertKeyword a = .pre then
      if seenPost || seenInv then
        .error (perr s "parse: assertion chain not in \"pre\", \"inv\", \"post\" order")
      else
        assertsSortedLoop s seenInv seenPost rest
    else if assertKeyword a = .inv then
      if seenPost then
        .error (perr s "parse: assertion chain not in \"pre\", \"inv\", \"post\" order")
      else
        assertsSortedLoop s true seenPost rest
    else
      assertsSortedLoop s seenInv true rest

/-- `p.assertsSorted(asserts)`: the assertion-chain validator. -/
def assertsSorted (s : ParserState) (asserts : List Node) : Except Err Unit :=
  assertsSortedLoop s false false asserts

/-- The loop of `p.parseList` (after the optional leading `(` was handled):
accumulated elements are threaded through `acc`. -/
def parseListLoop (fuel : Nat) (stop : TokID)
    (parseElem : ParserState → Except Err (Node × ParserState))
    (acc : List Node) (s : ParserState) : Except Err (List Node × ParserState) :=
  match fuel with
  | 0 => .error (fuelErr s)
  | fuel + 1 =>
    match s.src with
    | [] => .error (perr s ("parse: expected " ++ quoted stop.text))
    | tok :: rest =>
      if tok.id = stop then
        .ok (acc, if stop = .closeParen then { s with src := rest } else s)
      else
        match parseElem s with
        | .error e => .error e
        | .ok (elem, s) =>
          match s.peek1 with
          | some x =>
            if x = stop then
              .ok (acc ++ [elem], if stop = .closeParen then s.advance else s)
            else if x = .comma then
              parseListLoop fuel stop parseElem (acc ++ [elem]) s.advance
            else
              .error (perr s ("parse: expected " ++ quoted stop.text ++ ", got " ++
                quoted x.text))
          | none =>
            .error (perr s ("parse: expected " ++ quoted stop.text ++ ", got " ++
              quoted ""))

/-- `p.parseList(stop, parseElem)`: the shared bracket/list-parsing
primitive.  When `stop` is the closing-parenthesis class a leading opening
parenthesis is required and consumed first. -/
def parseList (fuel : Nat) (stop : TokID)
    (parseElem : ParserState → Except Err (Node × ParserState))
    (s : ParserState) : Except Err (List Node × ParserState) :=
  if stop = .closeParen then
    if s.peek1 = some .openParen then
      parseListLoop fuel stop parseElem [] s.advance
    else
      .error (perr s ("parse: expected \"(\", got " ++ quoted (optText s.peek1)))
  else
    parseListLoop fuel stop parseElem [] s

/-- The mandatory closing `]` of `parseBracket`. -/
def parseBracketClose (sep : TokID) (ei ej : Option Node) (s4 : ParserState) :
    Except Err ((TokID × Option Node × Option Node) × ParserState) :=
  if s4.peek1 = some .closeBracket then
    .ok ((sep, ei, ej), s4.advance)
  else
    .error (perr s4 ("parse: expected \"]\", got " ++ quoted (optText s4.peek1)))

/-- `pkg` as an expression/type ID (`0` for an unqualified name). -/
def eidOfPkg : Option TokID → EID
  | none => .zero
  | some k => .tid k

/-- The `iterate` unroll-count whitelist (the `case "1", "2", ...` labels). -/
def unrollWhitelist : List String :=
  ["1", "2", "4", "8", "16", "32", "64", "128", "256"]

mutual

/-- `p.parseExpr()`: one operand plus at most one binary/associative layer. -/
def parseExpr (fuel : Nat) (s : ParserState) : Except Err (Node × ParserState) :=
  match fuel with
  | 0 => .error (fuelErr s)
  | fuel + 1 =>
    match parseOperand fuel s with
    | .error e => .error e
    | .ok (lhs, s1) =>
      match s1.peek1 with
      | some x =>
        if x.isBinaryOp then
          let s2 := s1.advance
          match (if x = .as_ then parseTypeExpr fuel s2 else parseOperand fuel s2) with
          | .error e => .error e
          | .ok (rhs, s3) =>
            if ¬(x.isAssociativeOp = true) ∨ s3.peek1 ≠ some x then
              match x.binaryForm with
              | .zero => .error ⟨"parse: internal error: no binary form for token key", none⟩
              | op => .ok (newExpr {} op none (some lhs) none (some rhs) [], s3)
            else
              match parseAssocArgs fuel x [lhs, rhs] s3 with
              | .error e => .error e
              | .ok (args, s4) =>
                match x.associativeForm with
                | .zero =>
                  .error ⟨"parse: internal error: no associative form for token key", none⟩
                | op => .ok (newExpr {} op none none none none args, s4)
        else
          .ok (lhs, s1)
      | none => .ok (lhs, s1)

/-- The `for p.peek1() == x` loop of `parseExpr`: keeps consuming
`(operator, operand)` pairs of the same associative operator. -/
def parseAssocArgs (fuel : Nat) (x : TokID) (args : List Node) (s : ParserState) :
    Except Err (List Node × ParserState) :=
  match fuel with
  | 0 => .error (fuelErr s)
  | fuel + 1 =>
    if s.peek1 = some x then
      match parseOperand fuel s.advance with
      | .error e => .error e
      | .ok (arg, s1) => parseAssocArgs fuel x (args ++ [arg]) s1
    else
      .ok (args, s)

/-- `p.parseOperand()`: unary/literal/parenthesized/status-literal operands,
otherwise an identifier with its postfix chain. -/
def parseOperand (fuel : Nat) (s : ParserState) : Except Err (Node × ParserState) :=
  match fuel with
  | 0 => .error (fuelErr s)
  | fuel + 1 =>
    match s.peek1 with
    | some x =>
      if x.isUnaryOp then
        match parseOperand fuel s.advance with
        | .error e => .error e
        | .ok (rhs, s1) =>
          match x.unaryForm with
          | .zero => .error ⟨"parse: internal error: no unary form for token key", none⟩
          | op => .ok (newExpr {} op none none none (some rhs) [], s1)
      else if x.isLiteral then
        .ok (newExpr {} .zero (some x) none none none [], s.advance)
      else
        match x with
        | .openParen =>
          match parseExpr fuel s.advance with
          | .error e => .error e
          | .ok (inner, s1) =>
            if s1.peek1 = some .closeParen then
              .ok (inner, s1.advance)
            else
              .error (perr s1 ("parse: expected \")\", got " ++ quoted (optText s1.peek1)))
        | .error_ | .status_ | .suspension =>
          let s1 := s.advance
          match s1.peek1 with
          | some message =>
            if message.isStrLiteral then
              .ok (newExpr {} (.tid x) (some message) none none none [], s1.advance)
            else
              .error (perr s1 ("parse: expected string literal, got " ++ quoted message.text))
          | none => .error (perr s1 ("parse: expected string literal, got " ++ quoted ""))
        | _ => parseOperandIdent fuel s
    | none => parseOperandIdent fuel s

/-- The tail of `parseOperand`: `parseIdent` followed by the postfix chain. -/
def parseOperandIdent (fuel : Nat) (s : ParserState) : Except Err (Node × ParserState) :=
  match fuel with
  | 0 => .error (fuelErr s)
  | fuel + 1 =>
    match parseIdent s with
    | .error e => .error e
    | .ok (id, s1) => parseOperandRest fuel (newExpr {} .zero (some id) none none none []) s1

/-- The `for` loop of `parseOperand`: call, index/slice and field-selection
suffixes folding left onto the growing operand. -/
def parseOperandRest (fuel : Nat) (lhs : Node) (s : ParserState) :
    Except Err (Node × ParserState) :=
  match fuel with
  | 0 => .error (fuelErr s)
  | fuel + 1 =>
    match s.peek1 with
    | some .exclam | some .question =>
      let flags : Flags :=
        if s.peek1 = some .question then
          { impure := true, callImpure := true, suspendible := true, callSuspendible := true }
        else
          { impure := true, callImpure := true }
      match parseList fuel .closeParen (fun st => parseArgNode fuel st) s.advance with
      | .error e => .error e
      | .ok (args, s1) =>
        parseOperandRest fuel (newExpr flags (.tid .openParen) none (some lhs) none none args) s1
    | some .openParen =>
      match parseList fuel .closeParen (fun st => parseArgNode fuel st) s with
      | .error e => .error e
      | .ok (args, s1) =>
        parseOperandRest fuel (newExpr {} (.tid .openParen) none (some lhs) none none args) s1
    | some .openBracket =>
      match parseBracket fuel .colon s with
      | .error e => .error e
      | .ok ((id0, mhs, rhs), s1) =>
        parseOperandRest fuel (newExpr {} (.tid id0) none (some lhs) mhs rhs []) s1
    | some .dot =>
      match parseIdent s.advance with
      | .error e => .error e
      | .ok (selector, s1) =>
        parseOperandRest fuel (newExpr {} (.tid .dot) (some selector) (some lhs) none none []) s1
    | _ => .ok (lhs, s)

/-- `p.parseBracket(sep)`: `[i]`, `[i:j]`, `[i:]`, `[:j]`, `[:]` (with `..`
for `:` when `sep` is the double dot); returns the operator tag and the
optional low/high expressions.  The code after the optional low-bound parse
continues in `parseBracketSep`, and the final mandatory `]` check lives in
`parseBracketClose`. -/
def parseBracket (fuel : Nat) (sep : TokID) (s : ParserState) :
    Except Err ((TokID × Option Node × Option Node) × ParserState) :=
  match fuel with
  | 0 => .error (fuelErr s)
  | fuel + 1 =>
    if s.peek1 = some .openBracket then
      let s1 := s.advance
      if s1.peek1 ≠ some sep then
        match parseExpr fuel s1 with
        | .error e => .error e
        | .ok (ei, s2) => parseBracketSep fuel sep (some ei) s2
      else
        parseBracketSep fuel sep none s1
    else
      .error (perr s ("parse: expected \"[\", got " ++ quoted (optText s.peek1)))

/-- The switch of `parseBracket` after the optional low bound: a separator
(followed by an optional high bound and `]`), or `]` closing a bare index
when `sep` is the colon, or an error. -/
def parseBracketSep (fuel : Nat) (sep : TokID) (ei : Option Node) (s2 : ParserState) :
    Except Err ((TokID × Option Node × Option Node) × ParserState) :=
  match fuel with
  | 0 => .error (fuelErr s2)
  | fuel + 1 =>
    if s2.peek1 = some sep then
      let s3 := s2.advance
      if s3.peek1 ≠ some .closeBracket then
        match parseExpr fuel s3 with
        | .error e => .error e
        | .ok (ej, s4) => parseBracketClose sep ei (some ej) s4
      else
        parseBracketClose sep ei none s3
    else if s2.peek1 = some .closeBracket ∧ sep = .colon then
      .ok ((.openBracket, none, ei), s2.advance)
    else
      .error (perr s2 ("parse: expected " ++ quoted sep.text ++
        (if sep = .colon then " or \"]\"" else "") ++ ", got " ++
        quoted (optText s2.peek1)))

/-- `p.parseTypeExpr()`: pointer, slice/array, or qualified name with
optional refinement bracket. -/
def parseTypeExpr (fuel : Nat) (s : ParserState) : Except Err (Node × ParserState) :=
  match fuel with
  | 0 => .error (fuelErr s)
  | fuel + 1 =>
    if s.peek1 = some .ptr then
      match parseTypeExpr fuel s.advance with
      | .error e => .error e
      | .ok (rhs, s1) => .ok (newTypeExpr (.tid .ptr) none none none (some rhs), s1)
    else if s.peek1 = some .openBracket then
      let s1 := s.advance
      if s1.peek1 ≠ some .closeBracket then
        match parseExpr fuel s1 with
        | .error e => .error e
        | .ok (lhs, s2) =>
          if s2.peek1 = some .closeBracket then
            match parseTypeExpr fuel s2.advance with
            | .error e => .error e
            | .ok (rhs, s3) =>
              .ok (newTypeExpr (.tid .openBracket) none (some lhs) none (some rhs), s3)
          else
            .error (perr s2 ("parse: expected \"]\", got " ++ quoted (optText s2.peek1)))
      else
        match parseTypeExpr fuel s1.advance with
        | .error e => .error e
        | .ok (rhs, s2) => .ok (newTypeExpr (.tid .colon) none none none (some rhs), s2)
    else
      match parseQualifiedIdent s with
      | .error e => .error e
      | .ok ((pkg, name), s1) =>
        if s1.peek1 = some .openBracket then
          match parseBracket fuel .dotdot s1 with
          | .error e => .error e
          | .ok ((_, lhs, mhs), s2) =>
            .ok (newTypeExpr (eidOfPkg pkg) (some name) lhs mhs none, s2)
        else
          .ok (newTypeExpr (eidOfPkg pkg) (some name) none none none, s1)

/-- `p.parseStatement()`: `parseStatement1` plus the line-stamping pass (the
statement node and, for `iterate`, each declared loop variable). -/
def parseStatement (fuel : Nat) (s : ParserState) : Except Err (Node × ParserState) :=
  match fuel with
  | 0 => .error (fuelErr s)
  | fuel + 1 =>
    let line : Nat := match s.src with | t :: _ => t.line | [] => 0
    match parseStatement1 fuel s with
    | .error e => .error e
    | .ok (n, s1) =>
      let n := setFilenameLine n s.filename line
      let n :=
        match n with
        | .iterateStmt fn ln lb u vs a b =>
          .iterateStmt fn ln lb u (vs.map fun v => setFilenameLine v s.filename line) a b
        | other => other
      .ok (n, s1)

/-- `p.parseStatement1()`: one statement, dispatching on the first token. -/
def parseStatement1 (fuel : Nat) (s : ParserState) : Except Err (Node × ParserState) :=
  match fuel with
  | 0 => .error (fuelErr s)
  | fuel + 1 =>
    match s.peek1 with
    | some .assert_ | some .pre | some .post => parseAssertNode fuel s
    | some .break_ | some .continue_ =>
      let x := match s.peek1 with | some k => k | none => .break_
      match parseLabel s.advance with
      | .error e => .error e
      | .ok (label, s1) => .ok (.jump "" 0 x label, s1)
    | some .if_ => parseIf fuel s
    | some .iterate =>
      let s1 := s.advance
      if s1.peek1 = some .dot then
        let s2 := s1.advance
        match s2.peek1 with
        | some u =>
          if u.isLiteral then
            let s3 := s2.advance
            if unrollWhitelist.contains u.text then
              parseIterateTail fuel (newExpr {} .zero (some u) none none none []) s3
            else
              .error (perr s3 ("parse: expected power-of-2 unroll count in [1..256], got " ++
                quoted u.text))
          else
            .error (perr s2 ("parse: expected literal unroll count, got " ++ quoted u.text))
        | none =>
          .error (perr s2 ("parse: expected literal unroll count, got " ++ quoted ""))
      else
        .error (perr s1 ("parse: expected \".\", got " ++ quoted (optText s1.peek1)))
    | some .return_ =>
      let s1 := s.advance
      if s1.peek1 ≠ some .semicolon then
        match parseExpr fuel s1 with
        | .error e => .error e
        | .ok (value, s2) => .ok (.returnStmt "" 0 (some value), s2)
      else
        .ok (.returnStmt "" 0 none, s1)
    | some .var_ => parseVar fuel false s.advance
    | some .while_ =>
      match parseLabel s.advance with
      | .error e => .error e
      | .ok (label, s1) =>
        match parseExpr fuel s1 with
        | .error e => .error e
        | .ok (condition, s2) =>
          match parseAsserts fuel s2 with
          | .error e => .error e
          | .ok (asserts, s3) =>
            match parseBlock fuel s3 with
            | .error e => .error e
            | .ok (body, s4) => .ok (.whileStmt "" 0 label condition asserts body, s4)
    | _ =>
      match parseExpr fuel s with
      | .error e => .error e
      | .ok (lhs, s1) =>
        match s1.peek1 with
        | some op =>
          if op.isAssign then
            match parseExpr fuel s1.advance with
            | .error e => .error e
            | .ok (rhs, s2) => .ok (.assign "" 0 op lhs rhs, s2)
          else
            .ok (lhs, s1)
        | none => .ok (lhs, s1)

/-- The tail of the `iterate` branch of `parseStatement1` after the unroll
count was accepted: optional label, variable list, optional assert chain and
body. -/
def parseIterateTail (fuel : Nat) (unroll : Node) (s : ParserState) :
    Except Err (Node × ParserState) :=
  match fuel with
  | 0 => .error (fuelErr s)
  | fuel + 1 =>
    match parseLabel s with
    | .error e => .error e
    | .ok (label, s4) =>
      match parseList fuel .closeParen (fun st => parseIterateVariableNode fuel st) s4 with
      | .error e => .error e
      | .ok (vars, s5) =>
        match parseAsserts fuel s5 with
        | .error e => .error e
        | .ok (asserts, s6) =>
          match parseBlock fuel s6 with
          | .error e => .error e
          | .ok (body, s7) =>
            .ok (.iterateStmt "" 0 label unroll vars asserts body, s7)

/-- `p.parseAsserts()`: the optional `, assert-chain` of a `while`/`iterate`
header, validated by `assertsSorted`. -/
def parseAsserts (fuel : Nat) (s : ParserState) : Except Err (List Node × ParserState) :=
  match fuel with
  | 0 => .error (fuelErr s)
  | fuel + 1 =>
    if s.peek1 = some .comma then
      match parseList fuel .openCurly (fun st => parseAssertNode fuel st) s.advance with
      | .error e => .error e
      | .ok (asserts, s1) =>
        match assertsSorted s1 asserts with
        | .error e => .error e
        | .ok () => .ok (asserts, s1)
    else
      .ok ([], s)

/-- `p.parseIf()`: `if cond { } [else (if ... | { })]`. -/
def parseIf (fuel : Nat) (s : ParserState) : Except Err (Node × ParserState) :=
  match fuel with
  | 0 => .error (fuelErr s)
  | fuel + 1 =>
    if s.peek1 = some .if_ then
      match parseExpr fuel s.advance with
      | .error e => .error e
      | .ok (condition, s1) =>
        match parseBlock fuel s1 with
        | .error e => .error e
        | .ok (bodyIfTrue, s2) =>
          if s2.peek1 = some .else_ then
            let s3 := s2.advance
            if s3.peek1 = some .if_ then
              match parseIf fuel s3 with
              | .error e => .error e
              | .ok (elseIf, s4) =>
                .ok (.ifStmt "" 0 condition (some elseIf) bodyIfTrue [], s4)
            else
              match parseBlock fuel s3 with
              | .error e => .error e
              | .ok (bodyIfFalse, s4) =>
                .ok (.ifStmt "" 0 condition none bodyIfTrue bodyIfFalse, s4)
          else
            .ok (.ifStmt "" 0 condition none bodyIfTrue [], s2)
    else
      .error (perr s ("parse: expected \"if\", got " ++ quoted (optText s.peek1)))

/-- `p.parseAssertNode()`: `assert|pre|inv|post expr [via "<reason>" (args)]`. -/
def parseAssertNode (fuel : Nat) (s : ParserState) : Except Err (Node × ParserState) :=
  match fuel with
  | 0 => .error (fuelErr s)
  | fuel + 1 =>
    match s.peek1 with
    | some x =>
      if x = .assert_ ∨ x = .pre ∨ x = .inv ∨ x = .post then
        match parseExpr fuel s.advance with
        | .error e => .error e
        | .ok (condition, s1) =>
          if s1.peek1 = some .via then
            let s2 := s1.advance
            match s2.peek1 with
            | some reason =>
              if reason.isStrLiteral then
                match parseList fuel .closeParen (fun st => parseArgNode fuel st) s2.advance with
                | .error e => .error e
                | .ok (args, s3) =>
                  .ok (.assert "" 0 x condition (some reason) args, s3)
              else
                .error (perr s2 ("parse: expected string literal, got " ++ quoted reason.text))
            | none => .error (perr s2 ("parse: expected string literal, got " ++ quoted ""))
          else
            .ok (.assert "" 0 x condition none [], s1)
      else
        .error (perr s "parse: expected \"assert\", \"pre\" or \"post\"")
    | none => .error (perr s "parse: expected \"assert\", \"pre\" or \"post\"")

/-- `p.parseArgNode()`: a named argument `ident ':' expr`. -/
def parseArgNode (fuel : Nat) (s : ParserState) : Except Err (Node × ParserState) :=
  match fuel with
  | 0 => .error (fuelErr s)
  | fuel + 1 =>
    match parseIdent s with
    | .error e => .error e
    | .ok (name, s1) =>
      if s1.peek1 = some .colon then
        match parseExpr fuel s1.advance with
        | .error e => .error e
        | .ok (value, s2) => .ok (.arg name value, s2)
      else
        .error (perr s1 ("parse: expected \":\", got " ++ quoted (optText s1.peek1)))

/-- `p.parseFieldNode()`: `ident type ['=' expr]`. -/
def parseFieldNode (fuel : Nat) (s : ParserState) : Except Err (Node × ParserState) :=
  match fuel with
  | 0 => .error (fuelErr s)
  | fuel + 1 =>
    match parseIdent s with
    | .error e => .error e
    | .ok (name, s1) =>
      match parseTypeExpr fuel s1 with
      | .error e => .error e
      | .ok (typ, s2) =>
        if s2.peek1 = some .eq then
          match parseExpr fuel s2.advance with
          | .error e => .error e
          | .ok (defaultValue, s3) => .ok (.field name typ (some defaultValue), s3)
        else
          .ok (.field name typ none, s2)

/-- `p.parseExprNode()`. -/
def parseExprNode (fuel : Nat) (s : ParserState) : Except Err (Node × ParserState) :=
  match fuel with
  | 0 => .error (fuelErr s)
  | fuel + 1 => parseExpr fuel s

/-- `p.parseIterateVariableNode()`. -/
def parseIterateVariableNode (fuel : Nat) (s : ParserState) : Except Err (Node × ParserState) :=
  match fuel with
  | 0 => .error (fuelErr s)
  | fuel + 1 => parseVar fuel true s

/-- `p.parseVar(inIterate)`: `ident type` then `':' expr` (inside an
`iterate` variable list) or an optional `'=' [try] expr`. -/
def parseVar (fuel : Nat) (inIterate : Bool) (s : ParserState) :
    Except Err (Node × ParserState) :=
  match fuel with
  | 0 => .error (fuelErr s)
  | fuel + 1 =>
    match parseIdent s with
    | .error e => .error e
    | .ok (id, s1) =>
      match parseTypeExpr fuel s1 with
      | .error e => .error e
      | .ok (typ, s2) =>
        if inIterate then
          if s2.peek1 = some .colon then
            match parseExpr fuel s2.advance with
            | .error e => .error e
            | .ok (value, s3) => .ok (.varDecl "" 0 (some .colon) id typ (some value), s3)
          else
            .error (perr s2 ("parse: expected \":\", got " ++ quoted (optText s2.peek1)))
        else
          if s2.peek1 = some .eq then
            let s3 := s2.advance
            if s3.peek1 = some .try_ then
              match parseTryExpr fuel s3 with
              | .error e => .error e
              | .ok (value, s4) => .ok (.varDecl "" 0 (some .eq) id typ (some value), s4)
            else
              match parseExpr fuel s3 with
              | .error e => .error e
              | .ok (value, s4) => .ok (.varDecl "" 0 (some .eq) id typ (some value), s4)
          else
            .ok (.varDecl "" 0 none id typ none, s2)

/-- `p.parseTryExpr()`: `try` followed by an expression that must itself be a
call. -/
def parseTryExpr (fuel : Nat) (s : ParserState) : Except Err (Node × ParserState) :=
  match fuel with
  | 0 => .error (fuelErr s)
  | fuel + 1 =>
    if s.peek1 = some .try_ then
      match parseExpr fuel s.advance with
      | .error e => .error e
      | .ok (call, s1) =>
        if call.exprID0 ≠ .tid .openParen then
          .error (perr s1 ("parse: expected function call after \"try\", got " ++
            quoted (exprDebugText call)))
        else
          .ok (newExpr call.nodeFlags (.tid .try_) call.exprID1
            call.exprLHS call.exprMHS call.exprRHS call.exprArgs, s1)
    else
      .error (perr s ("parse: expected \"try\", got " ++ quoted (optText s.peek1)))

/-- `p.parseDollarExpr()`: the literal-list form `$(expr, ...)`. -/
def parseDollarExpr (fuel : Nat) (s : ParserState) : Except Err (Node × ParserState) :=
  match fuel with
  | 0 => .error (fuelErr s)
  | fuel + 1 =>
    if s.peek1 = some .dollar then
      match parseList fuel .closeParen (fun st => parseExprNode fuel st) s.advance with
      | .error e => .error e
      | .ok (args, s1) => .ok (newExpr {} (.tid .dollar) none none none none args, s1)
    else
      .error (perr s ("parse: expected \"$\", got " ++ quoted (optText s.peek1)))

/-- `p.parseBlock()`: `'{' statement-terminator-list '}'`. -/
def parseBlock (fuel : Nat) (s : ParserState) : Except Err (List Node × ParserState) :=
  match fuel with
  | 0 => .error (fuelErr s)
  | fuel + 1 =>
    if s.peek1 = some .openCurly then
      parseBlockLoop fuel [] s.advance
    else
      .error (perr s ("parse: expected \"\x7b\", got " ++ quoted (optText s.peek1)))

/-- The statement loop of `parseBlock`, requiring an (implicit) `;` after
each statement. -/
def parseBlockLoop (fuel : Nat) (acc : List Node) (s : ParserState) :
    Except Err (List Node × ParserState) :=
  match fuel with
  | 0 => .error (fuelErr s)
  | fuel + 1 =>
    match s.src with
    | [] => .error (perr s "parse: expected \"\x7d\"")
    | tok :: rest =>
      if tok.id = .closeCurly then
        .ok (acc, { s with src := rest })
      else
        match parseStatement fuel s with
        | .error e => .error e
        | .ok (stmt, s1) =>
          if s1.peek1 = some .semicolon then
            parseBlockLoop fuel (acc ++ [stmt]) s1.advance
          else
            .error (perr s1 ("parse: expected (implicit) \";\", got " ++
              quoted (optText s1.peek1)))

/-- `p.parseTopLevelDecl()`: one top-level declaration, dispatching on its
first token. -/
def parseTopLevelDecl (fuel : Nat) (s : ParserState) : Except Err (Node × ParserState) :=
  match fuel with
  | 0 => .error (fuelErr s)
  | fuel + 1 =>
    let line : Nat := match s.src with | t :: _ => t.line | [] => 0
    match s.peek1 with
    | some .packageid | some .use_ =>
      let k := match s.peek1 with | some x => x | none => .use_
      let s1 := s.advance
      match s1.peek1 with
      | some path =>
        if path.isStrLiteral then
          let s2 := s1.advance
          if s2.peek1 = some .semicolon then
            let s3 := s2.advance
            if k = .packageid then
              match unescape path.text with
              | none => .error (packageidErr path.text)
              | some str =>
                match base38Encode str with
                | none => .error (packageidErr str)
                | some u =>
                  if u = 0 then
                    .error (packageidErr str)
                  else
                    .ok (.packageidDecl s.filename line path, s3)
            else
              .ok (.useDecl s.filename line path, s3)
          else
            .error (perr s2 ("parse: expected (implicit) \";\", got " ++
              quoted (optText s2.peek1)))
        else
          .error (perr s1 ("parse: expected string literal, got " ++ quoted path.text))
      | none => .error (perr s1 ("parse: expected string literal, got " ++ quoted ""))
    | some .pub | some .pri =>
      let flags : Flags := if s.peek1 = some .pub then { public_ := true } else {}
      let s1 := s.advance
      match s1.peek1 with
      | some .const_ =>
        match parseIdent s1.advance with
        | .error e => .error e
        | .ok (id, s2) =>
          match parseTypeExpr fuel s2 with
          | .error e => .error e
          | .ok (typ, s3) =>
            if s3.peek1 = some .eq then
              let s4 := s3.advance
              match
                (if s4.peek1 = some .dollar then parseDollarExpr fuel s4
                 else parseExpr fuel s4) with
              | .error e => .error e
              | .ok (value, s5) =>
                if s5.peek1 = some .semicolon then
                  .ok (.constDecl flags s.filename line id typ value, s5.advance)
                else
                  .error (perr s5 ("parse: expected (implicit) \";\", got " ++
                    quoted (optText s5.peek1)))
            else
              .error (perr s3 ("parse: const " ++ quoted id.text ++ " has no value"))
      | some .func_ =>
        match parseQualifiedIdent s1.advance with
        | .error e => .error e
        | .ok ((id0, id1), s2) =>
          if (match id0 with | some r => r.isBuiltIn | none => false) then
            .error (perr s2 ("parse: built-in " ++ quoted (optText id0) ++
              " used for func receiver"))
          else if id1.isBuiltIn then
            .error (perr s2 ("parse: built-in " ++ quoted id1.text ++ " used for func name"))
          else
            let flags :=
              if s2.peek1 = some .exclam then { flags with impure := true }
              else if s2.peek1 = some .question then
                { flags with impure := true, suspendible := true }
              else flags
            let s3 :=
              if s2.peek1 = some .exclam ∨ s2.peek1 = some .question then s2.advance else s2
            match parseList fuel .closeParen (fun st => parseFieldNode fuel st) s3 with
            | .error e => .error e
            | .ok (inFields, s4) =>
              match parseList fuel .closeParen (fun st => parseFieldNode fuel st) s4 with
              | .error e => .error e
              | .ok (outFields, s5) =>
                match parseAsserts fuel s5 with
                | .error e => .error e
                | .ok (asserts, s6) =>
                  match parseBlock fuel s6 with
                  | .error e => .error e
                  | .ok (body, s7) =>
                    if s7.peek1 = some .semicolon then
                      let inNode := Node.structDecl {} s.filename line (.ident "in") inFields
                      let outNode := Node.structDecl {} s.filename line (.ident "out") outFields
                      .ok (.funcDecl flags s.filename line id0 id1 inNode outNode
                        asserts body, s7.advance)
                    else
                      .error (perr s7 ("parse: expected (implicit) \";\", got " ++
                        quoted (optText s7.peek1)))
      | some .error_ | some .suspension =>
        let keyword := match s1.peek1 with | some x => x | none => .error_
        let s2 := s1.advance
        match s2.peek1 with
        | some message =>
          if message.isStrLiteral then
            let s3 := s2.advance
            if s3.peek1 = some .semicolon then
              .ok (.statusDecl flags s.filename line keyword message, s3.advance)
            else
              .error (perr s3 ("parse: expected (implicit) \";\", got " ++
                quoted (optText s3.peek1)))
          else
            .error (perr s2 ("parse: expected string literal, got " ++ quoted message.text))
        | none => .error (perr s2 ("parse: expected string literal, got " ++ quoted ""))
      | some .struct_ =>
        match parseIdent s1.advance with
        | .error e => .error e
        | .ok (name, s2) =>
          if name.isBuiltIn then
            .error (perr s2 ("parse: built-in " ++ quoted name.text ++
              " used for struct name"))
          else
            let flags := if s2.peek1 = some .question then
              { flags with suspendible := true } else flags
            let s3 := if s2.peek1 = some .question then s2.advance else s2
            match parseList fuel .closeParen (fun st => parseFieldNode fuel st) s3 with
            | .error e => .error e
            | .ok (fields, s4) =>
              if s4.peek1 = some .semicolon then
                .ok (.structDecl flags s.filename line name fields, s4.advance)
              else
                .error (perr s4 ("parse: expected (implicit) \";\", got " ++
                  quoted (optText s4.peek1)))
      | _ => .error ⟨"parse: unrecognized top level declaration", some (s.filename, line)⟩
    | _ => .error ⟨"parse: unrecognized top level declaration", some (s.filename, line)⟩

end

/-- The declaration loop of `p.parseFile()`. -/
def parseFileLoop (fuel : Nat) (acc : List Node) (s : ParserState) :
    Except Err (List Node × ParserState) :=
  match fuel with
  | 0 => .error (fuelErr s)
  | fuel + 1 =>
    match s.src with
    | [] => .ok (acc, s)
    | _ :: _ =>
      match parseTopLevelDecl fuel s with
      | .error e => .error e
      | .ok (d, s1) => parseFileLoop fuel (acc ++ [d]) s1

/-- `p.parseFile()`: top-level declarations until the stream is empty,
assembled into a `File` node. -/
def parseFile (fuel : Nat) (s : ParserState) : Except Err (Node × ParserState) :=
  match parseFileLoop fuel [] s with
  | .error e => .error e
  | .ok (decls, s1) => .ok (.file s.filename decls, s1)

/-- The parser state built by the `Parse`/`ParseExpr` entry points. -/
def initState (filename : String) (src : List Token) : ParserState :=
  { src := src, filename := filename,
    lastLine := match src.getLast? with | some t => t.line | none => 0 }

/-- `Parse(tm, filename, src)`: the whole-file entry point (the intern table
is folded into the tokens). -/
def Parse (fuel : Nat) (filename : String) (src : List Token) : Except Err Node :=
  match parseFile fuel (initState filename src) with
  | .error e => .error e
  | .ok (f, _) => .ok f

/-- `ParseExpr(tm, filename, src)`: the standalone-expression entry point. -/
def ParseExpr (fuel : Nat) (filename : String) (src : List Token) : Except Err Node :=
  match parseExpr fuel (initState filename src) with
  | .error e => .error e
  | .ok (n, _) => .ok n

/-! ## Spec-side predicates used by the claims -/

/-- The stage of an assert keyword in the required `pre`, `inv`, `post`
order; every keyword other than `pre`/`inv` is handled by the validator's
default branch, like `post`. -/
def assertStage (k : TokID) : Nat :=
  if k = .pre then 0 else if k = .inv then 1 else 2

/-- The chain condition of claim C1: no node's keyword is bare `assert`,
and the keyword sequence matches `pre* inv* post*` (no `pre` after an `inv`
or `post`, and no `inv` after a `post`). -/
def chainKeywordsOK (ns : List Node) : Prop :=
  (∀ n ∈ ns, assertKeyword n ≠ .assert_) ∧
  List.Pairwise
    (fun a b => assertStage (assertKeyword a) ≤ assertStage (assertKeyword b)) ns

/-- The stage threshold encoded by the validator's `seenInv`/`seenPost`
booleans. -/
def seenStage (seenInv seenPost : Bool) : Nat :=
  if seenPost then 2 else if seenInv then 1 else 0

/-- An error that carries the `at filename:line` position, or is one of the
two package-id validity diagnostics (which omit it). -/
def errPositioned (e : Err) : Prop :=
  e.pos.isSome = true ∨ ∃ raw, e = packageidErr raw

/-! ## Helper lemmas -/

/-- The recursive threshold form of the chain condition: every keyword is at
or above the running stage threshold, which steps up to the stage just
seen. -/
def chainSpecFrom (c : Nat) : List Node → Prop
  | [] => True
  | a :: rest =>
    assertKeyword a ≠ .assert_ ∧ c ≤ assertStage (assertKeyword a) ∧
      chainSpecFrom (max c (assertStage (assertKeyword a))) rest

theorem assertsSortedLoop_ok_iff_chainSpecFrom (s : ParserState) :
    ∀ (ns : List Node) (seenInv seenPost : Bool),
      assertsSortedLoop s seenInv seenPost ns = .ok () ↔
        chainSpecFrom (seenStage seenInv seenPost) ns := by
  intro ns
  induction ns with
  | nil => intro si sp; simp [assertsSortedLoop, chainSpecFrom]
  | cons a rest ih =>
    intro si sp
    by_cases h1 : assertKeyword a = .assert_
    · simp [assertsSortedLoop, chainSpecFrom, h1]
    · by_cases h2 : assertKeyword a = .pre
      · cases si <;> cases sp <;>
          simp [assertsSortedLoop, chainSpecFrom, h1, h2, assertStage, seenStage, ih]
      · by_cases h3 : assertKeyword a = .inv
        · cases si <;> cases sp <;>
            simp [assertsSortedLoop, chainSpecFrom, h1, h2, h3, assertStage, seenStage, ih]
        · cases si <;> cases sp <;>
            simp [assertsSortedLoop, chainSpecFrom, h1, h2, h3, assertStage, seenStage, ih]

theorem chainSpecFrom_iff (ns : List Node) :
    ∀ c : Nat,
      chainSpecFrom c ns ↔
        ((∀ n ∈ ns, assertKeyword n ≠ .assert_) ∧
         List.Pairwise
           (fun a b => assertStage (assertKeyword a) ≤ assertStage (assertKeyword b)) ns ∧
         (∀ n ∈ ns, c ≤ assertStage (assertKeyword n))) := by
  induction ns with
  | nil => intro c; simp [chainSpecFrom]
  | cons a rest ih =>
    intro c
    simp only [chainSpecFrom, ih, List.pairwise_cons, List.forall_mem_cons]
    constructor
    · rintro ⟨hA, hc, hna, hpw, hth⟩
      refine ⟨⟨hA, hna⟩, ⟨fun b hb => le_trans (le_max_right c _) (hth b hb), hpw⟩,
        hc, fun n hn => le_trans (le_max_left c _) (hth n hn)⟩
    · rintro ⟨⟨hA, hna⟩, ⟨hhd, hpw⟩, hc, hth⟩
      exact ⟨hA, hc, hna, hpw, fun n hn => max_le (hth n hn) (hhd n hn)⟩

theorem assertsSorted_ok_iff (s : ParserState) (ns : List Node) :
    assertsSorted s ns = .ok () ↔ chainKeywordsOK ns := by
  rw [assertsSorted, assertsSortedLoop_ok_iff_chainSpecFrom, chainSpecFrom_iff]
  simp [chainKeywordsOK, seenStage]

theorem parseAsserts_ok_chainOK :
    ∀ (fuel : Nat) (s : ParserState) (ns : List Node) (s1 : ParserState),
      parseAsserts fuel s = .ok (ns, s1) → chainKeywordsOK ns := by
  intro fuel s ns s1 h
  cases fuel with
  | zero => simp [parseAsserts] at h
  | succ fuel =>
    simp only [parseAsserts] at h
    by_cases hc : s.peek1 = some .comma
    · rw [if_pos hc] at h
      rcases hL : parseList fuel .openCurly (fun st => parseAssertNode fuel st) s.advance
        with eL | ⟨asserts, s2⟩ <;> simp only [hL] at h
      · exact absurd h (by simp)
      · rcases hS : assertsSorted s2 asserts with eS | u <;> simp only [hS] at h
        · exact absurd h (by simp)
        · cases u
          simp only [Except.ok.injEq, Prod.mk.injEq] at h
          obtain ⟨h1, _⟩ := h
          subst h1
          exact (assertsSorted_ok_iff s2 _).mp hS
    · rw [if_neg hc] at h
      simp only [Except.ok.injEq, Prod.mk.injEq] at h
      obtain ⟨h1, _⟩ := h
      subst h1
      exact ⟨by simp, by simp⟩

theorem parseTopLevelDecl_func_chainOK :
    ∀ (fuel : Nat) (s : ParserState) (fl : Flags) (fn : String) (ln : Nat)
      (r : Option TokID) (nm : TokID) (inN outN : Node) (asserts body : List Node)
      (s1 : ParserState),
      parseTopLevelDecl fuel s =
        .ok (.funcDecl fl fn ln r nm inN outN asserts body, s1) →
      chainKeywordsOK asserts := by
  intro fuel s fl fn ln r nm inN outN asserts body s1 h
  cases fuel with
  | zero => simp [parseTopLevelDecl] at h
  | succ fuel =>
    simp only [parseTopLevelDecl] at h
    repeat' split at h
    all_goals try simp_all [assertsSorted_ok_iff]
    all_goals solve_by_elim [parseAsserts_ok_chainOK]

theorem parseFileLoop_ok_src_nil :
    ∀ (fuel : Nat) (acc : List Node) (s : ParserState) (ds : List Node)
      (s1 : ParserState),
      parseFileLoop fuel acc s = .ok (ds, s1) → s1.src = [] := by
  intro fuel
  induction fuel with
  | zero => intro acc s ds s1 h; simp [parseFileLoop] at h
  | succ fuel ih =>
    intro acc s ds s1 h
    simp only [parseFileLoop] at h
    split at h
    · simp only [Except.ok.injEq, Prod.mk.injEq] at h
      obtain ⟨_, h2⟩ := h
      subst h2
      assumption
    · split at h
      · exact absurd h (by simp)
      · exact ih _ _ _ _ h

theorem parseFile_ok_src_nil :
    ∀ (fuel : Nat) (s : ParserState) (f : Node) (s1 : ParserState),
      parseFile fuel s = .ok (f, s1) → s1.src = [] := by
  intro fuel s f s1 h
  simp only [parseFile] at h
  rcases hL : parseFileLoop fuel [] s with e | ⟨ds, s2⟩ <;> simp only [hL] at h
  · exact absurd h (by simp)
  · simp only [Except.ok.injEq, Prod.mk.injEq] at h
    obtain ⟨_, h2⟩ := h
    subst h2
    exact parseFileLoop_ok_src_nil fuel [] s ds _ hL

/-! ## Claims -/

/-- C1: For every ordered sequence of assert nodes whose keywords are drawn
from assert, pre, inv, post, the assertion-chain validator `assertsSorted`
accepts the sequence iff no node's keyword is bare `assert` and the keyword
sequence matches pre* inv* post* (`chainKeywordsOK`); moreover every chain
attached to a while/iterate header (via `parseAsserts`) or to a func header
(via `parseTopLevelDecl`) satisfies the condition whenever the enclosing
parse succeeds, so any violating sequence makes the enclosing parse return
an error. -/
theorem claim_C1_assert_chain_validator :
    (∀ (s : ParserState) (ns : List Node),
      (∀ n ∈ ns, assertKeyword n = .assert_ ∨ assertKeyword n = .pre ∨
        assertKeyword n = .inv ∨ assertKeyword n = .post) →
      (assertsSorted s ns = .ok () ↔ chainKeywordsOK ns)) ∧
    (∀ (fuel : Nat) (s : ParserState) (ns : List Node) (s1 : ParserState),
      parseAsserts fuel s = .ok (ns, s1) → chainKeywordsOK ns) ∧
    (∀ (fuel : Nat) (s : ParserState) (fl : Flags) (fn : String) (ln : Nat)
        (r : Option TokID) (nm : TokID) (inN outN : Node)
        (asserts body : List Node) (s1 : ParserState),
      parseTopLevelDecl fuel s =
        .ok (.funcDecl fl fn ln r nm inN outN asserts body, s1) →
      chainKeywordsOK asserts) :=
  ⟨fun s ns _ => assertsSorted_ok_iff s ns, parseAsserts_ok_chainOK,
    parseTopLevelDecl_func_chainOK⟩

/-- Witness for C1: a `pre, inv, post` chain is accepted and a `post, pre`
chain is rejected by the validator. -/
theorem claim_C1_witness :
    (assertsSorted ⟨[], "f", 0⟩
      [.assert "" 0 .pre (newExpr {} .zero (some (.ident "x")) none none none []) none [],
       .assert "" 0 .inv (newExpr {} .zero (some (.ident "x")) none none none []) none [],
       .assert "" 0 .post (newExpr {} .zero (some (.ident "x")) none none none []) none []] =
      .ok ()) ∧
    assertsSorted ⟨[], "f", 0⟩
      [.assert "" 0 .post (newExpr {} .zero (some (.ident "x")) none none none []) none [],
       .assert "" 0 .pre (newExpr {} .zero (some (.ident "x")) none none none []) none []] ≠
      .ok () := by
  constructor
  · exact (claim_C1_assert_chain_validator.1 _ _ (by decide)).mpr
      ⟨by decide, by
        simp [List.pairwise_cons, assertKeyword, assertStage, newExpr]⟩
  · intro hok
    have hc := (claim_C1_assert_chain_validator.1 _ _ (by decide)).mp hok
    have hpw := hc.2
    simp [List.pairwise_cons, assertKeyword, assertStage, newExpr] at hpw

/-- C2 (amended): whenever the whole-file entry point `Parse`/`parseFile`
returns successfully, the entire token stream has been consumed; the
expression entry point `ParseExpr`, however, performs no exhaustion check
and can succeed leaving tokens unconsumed. -/
theorem claim_C2_success_consumes_stream :
    (∀ (fuel : Nat) (s : ParserState) (f : Node) (s1 : ParserState),
      parseFile fuel s = .ok (f, s1) → s1.src = []) ∧
    (∃ (fname : String) (src : List Token) (n : Node) (s1 : ParserState),
      parseExpr 10 (initState fname src) = .ok (n, s1) ∧
      ParseExpr 10 fname src = .ok n ∧ s1.src ≠ []) :=
  ⟨parseFile_ok_src_nil,
    ⟨"f", [⟨.numLit "0", 1⟩, ⟨.numLit "1", 1⟩],
      newExpr {} .zero (some (.numLit "0")) none none none [],
      ⟨[⟨.numLit "1", 1⟩], "f", 1⟩, rfl, rfl, by simp⟩⟩

/-- Witness for C2 at a concrete input: the empty file parses and its final
state is exhausted. -/
theorem claim_C2_witness :
    parseFile 2 (initState "f" []) = .ok (.file "f" [], initState "f" []) ∧
    (initState "f" []).src = [] :=
  ⟨rfl, claim_C2_success_consumes_stream.1 2 (initState "f" [])
    (.file "f" []) (initState "f" []) rfl⟩

/-- C2 counterexample to the claim as stated: `ParseExpr` succeeds on a
two-literal stream although the second literal is never consumed. -/
theorem claim_C2_counterexample :
    ParseExpr 10 "f" [⟨.numLit "0", 1⟩, ⟨.numLit "1", 1⟩] =
      .ok (newExpr {} .zero (some (.numLit "0")) none none none []) ∧
    parseExpr 10 (initState "f" [⟨.numLit "0", 1⟩, ⟨.numLit "1", 1⟩]) =
      .ok (newExpr {} .zero (some (.numLit "0")) none none none [],
        ⟨[⟨.numLit "1", 1⟩], "f", 1⟩) ∧
    (⟨[⟨.numLit "1", 1⟩], "f", 1⟩ : ParserState).src ≠ [] :=
  ⟨rfl, rfl, by simp⟩

/-- C10: `Parse` applied to the empty token sequence succeeds with a `File`
node carrying the filename and no top-level declarations; `ParseExpr`
applied to the empty token sequence returns an error. -/
theorem claim_C10_empty_input :
    (∀ (fuel : Nat) (fname : String),
      Parse (fuel + 1) fname [] = .ok (.file fname [])) ∧
    (∀ (fuel : Nat) (fname : String),
      ParseExpr (fuel + 3) fname [] =
        .error ⟨"parse: expected identifier", some (fname, 0)⟩) :=
  ⟨fun _ _ => rfl, fun _ _ => rfl⟩

/-- C3: the shared list-parsing primitive: with the closing-parenthesis stop
key it first requires and consumes a leading opening parenthesis, otherwise
it consumes no opener; it returns the accumulated (possibly empty) sequence
on the stop key, consuming the stop token only in the paren-wrapped case;
after each parsed element it accepts the stop key (terminating, tolerating a
trailing comma via the loop re-check) or a comma (continuing) and errors on
any other token or on exhaustion. -/
theorem claim_C3_parseList_contract :
    (∀ (fuel : Nat) (pe : ParserState → Except Err (Node × ParserState))
        (s : ParserState), s.peek1 ≠ some .openParen →
      parseList fuel .closeParen pe s =
        .error (perr s ("parse: expected \"(\", got " ++ quoted (optText s.peek1)))) ∧
    (∀ (fuel : Nat) (pe : ParserState → Except Err (Node × ParserState))
        (t : Token) (rest : List Token) (fname : String) (ll : Nat),
      t.id = .openParen →
      parseList fuel .closeParen pe ⟨t :: rest, fname, ll⟩ =
        parseListLoop fuel .closeParen pe [] ⟨rest, fname, ll⟩) ∧
    (∀ (fuel : Nat) (stop : TokID) (pe : ParserState → Except Err (Node × ParserState))
        (s : ParserState), stop ≠ .closeParen →
      parseList fuel stop pe s = parseListLoop fuel stop pe [] s) ∧
    (∀ (fuel : Nat) (stop : TokID) (pe : ParserState → Except Err (Node × ParserState))
        (acc : List Node) (fname : String) (ll : Nat),
      parseListLoop (fuel + 1) stop pe acc ⟨[], fname, ll⟩ =
        .error (perr ⟨[], fname, ll⟩ ("parse: expected " ++ quoted stop.text))) ∧
    (∀ (fuel : Nat) (stop : TokID) (pe : ParserState → Except Err (Node × ParserState))
        (acc : List Node) (t : Token) (rest : List Token) (fname : String) (ll : Nat),
      t.id = stop →
      parseListLoop (fuel + 1) stop pe acc ⟨t :: rest, fname, ll⟩ =
        .ok (acc, if stop = .closeParen then ⟨rest, fname, ll⟩ else ⟨t :: rest, fname, ll⟩)) ∧
    (∀ (fuel : Nat) (stop : TokID) (pe : ParserState → Except Err (Node × ParserState))
        (acc : List Node) (t : Token) (rest : List Token) (fname : String) (ll : Nat)
        (elem : Node) (s1 : ParserState),
      t.id ≠ stop → pe ⟨t :: rest, fname, ll⟩ = .ok (elem, s1) →
      (s1.peek1 = some stop →
        parseListLoop (fuel + 1) stop pe acc ⟨t :: rest, fname, ll⟩ =
          .ok (acc ++ [elem], if stop = .closeParen then s1.advance else s1)) ∧
      (s1.peek1 = some .comma → stop ≠ .comma →
        parseListLoop (fuel + 1) stop pe acc ⟨t :: rest, fname, ll⟩ =
          parseListLoop fuel stop pe (acc ++ [elem]) s1.advance) ∧
      (∀ k : TokID, s1.peek1 = some k → k ≠ stop → k ≠ .comma →
        parseListLoop (fuel + 1) stop pe acc ⟨t :: rest, fname, ll⟩ =
          .error (perr s1 ("parse: expected " ++ quoted stop.text ++ ", got " ++
            quoted k.text))) ∧
      (s1.peek1 = none →
        parseListLoop (fuel + 1) stop pe acc ⟨t :: rest, fname, ll⟩ =
          .error (perr s1 ("parse: expected " ++ quoted stop.text ++ ", got " ++
            quoted "")))) := by
  refine ⟨?_, ?_, ?_, ?_, ?_, ?_⟩
  · intro fuel pe s h
    simp only [parseList, if_pos rfl, if_neg h]
    simp
  · intro fuel pe t rest fname ll h
    have hp : (⟨t :: rest, fname, ll⟩ : ParserState).peek1 = some .openParen := by
      simp [ParserState.peek1, h]
    simp only [parseList, if_pos rfl, hp, if_pos]
    simp [ParserState.advance]
  · intro fuel stop pe s h
    simp only [parseList, if_neg h]
  · intro fuel stop pe acc fname ll
    simp only [parseListLoop]
  · intro fuel stop pe acc t rest fname ll h
    simp only [parseListLoop, if_pos h]
  · intro fuel stop pe acc t rest fname ll elem s1 ht hpe
    refine ⟨?_, ?_, ?_, ?_⟩
    · intro hs
      simp only [parseListLoop, if_neg ht, hpe, hs, if_pos]
    · intro hs hsc
      have hcs : TokID.comma ≠ stop := fun hh => hsc hh.symm
      simp only [parseListLoop, if_neg ht, hpe, hs, if_neg hcs, if_pos rfl]
      simp
    · intro k hs hks hkc
      simp only [parseListLoop, if_neg ht, hpe, hs, if_neg hks, if_neg hkc]
    · intro hs
      simp only [parseListLoop, if_neg ht, hpe, hs]

/-- Witness for C3 at concrete inputs: missing opener error, empty
paren-wrapped list, and bare stop-hit for an unwrapped list. -/
theorem claim_C3_witness :
    (parseList 3 .closeParen (fun _ => .error ⟨"", none⟩) ⟨[], "f", 0⟩ =
      .error (perr ⟨[], "f", 0⟩ ("parse: expected \"(\", got " ++ quoted (optText none)))) ∧
    (parseListLoop 3 .openCurly (fun _ => .error ⟨"", none⟩) []
        ⟨[⟨.openCurly, 1⟩], "f", 1⟩ =
      .ok ([], if TokID.openCurly = .closeParen then ⟨[], "f", 1⟩
        else ⟨[⟨.openCurly, 1⟩], "f", 1⟩)) := by
  constructor
  · exact claim_C3_parseList_contract.1 3 (fun _ => .error ⟨"", none⟩)
      ⟨[], "f", 0⟩ (by decide)
  · exact claim_C3_parseList_contract.2.2.2.2.1 2 .openCurly
      (fun _ => .error ⟨"", none⟩) [] ⟨.openCurly, 1⟩ [] "f" 1 rfl

theorem TokID.binaryForm_eq (x : TokID) (h : x.isBinaryOp = true) :
    x.binaryForm = .binaryF x := by
  rw [TokID.binaryForm, if_pos h]

theorem TokID.associativeForm_eq (x : TokID) (h : x.isAssociativeOp = true) :
    x.associativeForm = .assocF x := by
  rw [TokID.associativeForm, if_pos h]

theorem parseAssocArgs_args_prefix :
    ∀ (fuel : Nat) (x : TokID) (acc : List Node) (s : ParserState)
      (args : List Node) (s1 : ParserState),
      parseAssocArgs fuel x acc s = .ok (args, s1) →
      ∃ extra, args = acc ++ extra := by
  intro fuel
  induction fuel with
  | zero => intro x acc s args s1 h; simp [parseAssocArgs] at h
  | succ fuel ih =>
    intro x acc s args s1 h
    simp only [parseAssocArgs] at h
    by_cases hp : s.peek1 = some x
    · rw [if_pos hp] at h
      rcases hO : parseOperand fuel s.advance with e | ⟨arg, s2⟩ <;>
        simp only [hO] at h
      · exact absurd h (by simp)
      · obtain ⟨extra, hex⟩ := ih x (acc ++ [arg]) s2 args s1 h
        exact ⟨arg :: extra, by simp [hex]⟩
    · rw [if_neg hp] at h
      simp only [Except.ok.injEq, Prod.mk.injEq] at h
      exact ⟨[], by simp [h.1.symm]⟩

/-- C4: in `parseExpr`, after one operand and one binary operator token the
result is a single binary node with exactly the two operands, unless the
operator is associative and the token immediately after the second operand
is the same operator, in which case the `(operator, operand)` loop
(`parseAssocArgs`) runs and the result is one n-ary node under the
associative form whose operand list extends `[lhs, rhs]` in order; the
concrete stream `a and b and c` yields one "and" node with exactly three
operands in left-to-right order. -/
theorem claim_C4_associative_folding :
    (∀ (fuel : Nat) (s s1 s2 : ParserState) (l r : Node) (x : TokID),
      parseOperand fuel s = .ok (l, s1) →
      s1.peek1 = some x →
      x.isBinaryOp = true →
      x ≠ .as_ →
      parseOperand fuel s1.advance = .ok (r, s2) →
      (¬(x.isAssociativeOp = true) ∨ s2.peek1 ≠ some x) →
      parseExpr (fuel + 1) s =
        .ok (newExpr {} (.binaryF x) none (some l) none (some r) [], s2)) ∧
    (∀ (fuel : Nat) (s s1 s2 s3 : ParserState) (l r : Node) (x : TokID)
        (args : List Node),
      parseOperand fuel s = .ok (l, s1) →
      s1.peek1 = some x →
      x.isBinaryOp = true →
      x ≠ .as_ →
      parseOperand fuel s1.advance = .ok (r, s2) →
      x.isAssociativeOp = true →
      s2.peek1 = some x →
      parseAssocArgs fuel x [l, r] s2 = .ok (args, s3) →
      parseExpr (fuel + 1) s =
        .ok (newExpr {} (.assocF x) none none none none args, s3)) ∧
    (∀ (fuel : Nat) (x : TokID) (acc : List Node) (s : ParserState)
        (args : List Node) (s1 : ParserState),
      parseAssocArgs fuel x acc s = .ok (args, s1) →
      ∃ extra, args = acc ++ extra) ∧
    (parseExpr 10 (initState "f"
        [⟨.ident "a", 1⟩, ⟨.and_, 1⟩, ⟨.ident "b", 1⟩, ⟨.and_, 1⟩, ⟨.ident "c", 1⟩]) =
      .ok (newExpr {} (.assocF .and_) none none none none
        [newExpr {} .zero (some (.ident "a")) none none none [],
         newExpr {} .zero (some (.ident "b")) none none none [],
         newExpr {} .zero (some (.ident "c")) none none none []],
        ⟨[], "f", 1⟩)) := by
  refine ⟨?_, ?_, parseAssocArgs_args_prefix, rfl⟩
  · intro fuel s s1 s2 l r x h1 h2 h3 h4 h5 h6
    simp only [parseExpr, h1, h2, if_pos h3, if_neg h4, h5, if_pos h6,
      TokID.binaryForm_eq x h3]
  · intro fuel s s1 s2 s3 l r x args h1 h2 h3 h4 h5 h6 h7 h8
    have hni : ¬(¬(x.isAssociativeOp = true) ∨ s2.peek1 ≠ some x) := by
      intro hc
      rcases hc with hna | hne
      · exact hna h6
      · exact hne h7
    simp only [parseExpr, h1, h2, if_pos h3, if_neg h4, h5, if_neg hni, h8,
      TokID.associativeForm_eq x h6]

/-- Witness for C4 at a concrete input: `1 + 2` (followed by nothing) gives
one binary "+" node with exactly two operands. -/
theorem claim_C4_witness :
    parseExpr 10 (initState "f" [⟨.numLit "1", 1⟩, ⟨.plus, 1⟩, ⟨.numLit "2", 1⟩]) =
      .ok (newExpr {} (.binaryF .plus) none
        (some (newExpr {} .zero (some (.numLit "1")) none none none [])) none
        (some (newExpr {} .zero (some (.numLit "2")) none none none [])) [],
        ⟨[], "f", 1⟩) :=
  claim_C4_associative_folding.1 9 (initState "f"
      [⟨.numLit "1", 1⟩, ⟨.plus, 1⟩, ⟨.numLit "2", 1⟩])
    ⟨[⟨.plus, 1⟩, ⟨.numLit "2", 1⟩], "f", 1⟩ ⟨[], "f", 1⟩ _ _ .plus
    rfl rfl rfl (by decide) rfl (Or.inr (by decide))

/-- C5: the expression grammar performs no precedence climbing: `parseExpr`
combines at most one binary operator, so on `1 + 2 * 3` (any continuation)
it returns the `1 + 2` node leaving `* 3` unconsumed; consequently the block
statement `var x T = 1 + 2 * 3 ;` fails its terminator check on the leftover
`*`, while the parenthesized `var x T = 1 + (2 * 3) ;` parses. -/
theorem claim_C5_no_precedence_climbing :
    (∀ (rest : List Token) (ll : Nat),
      parseExpr 10 ⟨⟨.numLit "1", 1⟩ :: ⟨.plus, 1⟩ :: ⟨.numLit "2", 1⟩ ::
          ⟨.star, 1⟩ :: ⟨.numLit "3", 1⟩ :: rest, "f", ll⟩ =
        .ok (newExpr {} (.binaryF .plus) none
            (some (newExpr {} .zero (some (.numLit "1")) none none none [])) none
            (some (newExpr {} .zero (some (.numLit "2")) none none none [])) [],
          ⟨⟨.star, 1⟩ :: ⟨.numLit "3", 1⟩ :: rest, "f", ll⟩)) ∧
    (parseBlock 12 (initState "f"
        [⟨.openCurly, 1⟩, ⟨.var_, 1⟩, ⟨.ident "x", 1⟩, ⟨.ident "T", 1⟩, ⟨.eq, 1⟩,
         ⟨.numLit "1", 1⟩, ⟨.plus, 1⟩, ⟨.numLit "2", 1⟩, ⟨.star, 1⟩, ⟨.numLit "3", 1⟩,
         ⟨.semicolon, 1⟩, ⟨.closeCurly, 1⟩]) =
      .error ⟨"parse: expected (implicit) \";\", got \"*\"", some ("f", 1)⟩) ∧
    (∃ r, parseBlock 14 (initState "f"
        [⟨.openCurly, 1⟩, ⟨.var_, 1⟩, ⟨.ident "x", 1⟩, ⟨.ident "T", 1⟩, ⟨.eq, 1⟩,
         ⟨.numLit "1", 1⟩, ⟨.plus, 1⟩, ⟨.openParen, 1⟩, ⟨.numLit "2", 1⟩, ⟨.star, 1⟩,
         ⟨.numLit "3", 1⟩, ⟨.closeParen, 1⟩, ⟨.semicolon, 1⟩, ⟨.closeCurly, 1⟩]) =
      .ok r) :=
  ⟨fun _ _ => rfl, rfl, ⟨_, rfl⟩⟩

/-- C6 (amended): `parseTryExpr` succeeds iff the expression after `try`
parses as a call (top operator tag `(`), in which case it returns a
try-tagged node carrying the call's flags, callee, arguments and slots, and
otherwise fails with a positioned error; `var x T = try (1+2);` fails
(operand is not a call) and `var x T = try f(a: 1, b: 2);` succeeds (call
arguments are named `ident ':' expr` pairs). -/
theorem claim_C6_try_requires_call :
    (∀ (fuel : Nat) (s : ParserState), s.peek1 ≠ some .try_ →
      parseTryExpr (fuel + 1) s =
        .error (perr s ("parse: expected \"try\", got " ++ quoted (optText s.peek1)))) ∧
    (∀ (fuel : Nat) (s : ParserState) (e : Err), s.peek1 = some .try_ →
      parseExpr fuel s.advance = .error e →
      parseTryExpr (fuel + 1) s = .error e) ∧
    (∀ (fuel : Nat) (s s1 : ParserState) (call : Node), s.peek1 = some .try_ →
      parseExpr fuel s.advance = .ok (call, s1) →
      call.exprID0 ≠ .tid .openParen →
      parseTryExpr (fuel + 1) s =
        .error (perr s1 ("parse: expected function call after \"try\", got " ++
          quoted (exprDebugText call)))) ∧
    (∀ (fuel : Nat) (s s1 : ParserState) (call : Node), s.peek1 = some .try_ →
      parseExpr fuel s.advance = .ok (call, s1) →
      call.exprID0 = .tid .openParen →
      parseTryExpr (fuel + 1) s =
        .ok (newExpr call.nodeFlags (.tid .try_) call.exprID1
          call.exprLHS call.exprMHS call.exprRHS call.exprArgs, s1)) ∧
    (parseVar 12 false (initState "f"
        [⟨.ident "x", 1⟩, ⟨.ident "T", 1⟩, ⟨.eq, 1⟩, ⟨.try_, 1⟩, ⟨.openParen, 1⟩,
         ⟨.numLit "1", 1⟩, ⟨.plus, 1⟩, ⟨.numLit "2", 1⟩, ⟨.closeParen, 1⟩,
         ⟨.semicolon, 1⟩]) =
      .error ⟨"parse: expected function call after \"try\", got \"expression\"",
        some ("f", 1)⟩) ∧
    (∃ r, parseVar 12 false (initState "f"
        [⟨.ident "x", 1⟩, ⟨.ident "T", 1⟩, ⟨.eq, 1⟩, ⟨.try_, 1⟩, ⟨.ident "g", 1⟩,
         ⟨.openParen, 1⟩, ⟨.ident "a", 1⟩, ⟨.colon, 1⟩, ⟨.numLit "1", 1⟩, ⟨.comma, 1⟩,
         ⟨.ident "b", 1⟩, ⟨.colon, 1⟩, ⟨.numLit "2", 1⟩, ⟨.closeParen, 1⟩,
         ⟨.semicolon, 1⟩]) = .ok r) := by
  refine ⟨?_, ?_, ?_, ?_, rfl, ⟨_, rfl⟩⟩
  · intro fuel s h
    simp only [parseTryExpr, if_neg h]
  · intro fuel s e h1 h2
    simp only [parseTryExpr, if_pos h1, h2]
  · intro fuel s s1 call h1 h2 h3
    simp only [parseTryExpr, if_pos h1, h2, if_pos h3]
  · intro fuel s s1 call h1 h2 h3
    have hnn : ¬(call.exprID0 ≠ EID.tid TokID.openParen) := fun hne => hne h3
    simp only [parseTryExpr, if_pos h1, h2, if_neg hnn]

/-- Witness for C6 at a concrete input: `try` not followed by `try` fails
with the dedicated error. -/
theorem claim_C6_witness :
    parseTryExpr 5 (initState "f" [⟨.numLit "1", 1⟩]) =
      .error (perr (initState "f" [⟨.numLit "1", 1⟩])
        ("parse: expected \"try\", got " ++
          quoted (optText (initState "f" [⟨.numLit "1", 1⟩]).peek1))) :=
  claim_C6_try_requires_call.1 4 (initState "f" [⟨.numLit "1", 1⟩]) (by decide)

/-- C6 counterexample to the claim as stated: the claim's success example
`var x T = try f(1, 2);` in fact fails, because call arguments must be
named (`parseArgNode` demands `ident ':' expr`). -/
theorem claim_C6_counterexample :
    parseVar 12 false (initState "f"
        [⟨.ident "x", 1⟩, ⟨.ident "T", 1⟩, ⟨.eq, 1⟩, ⟨.try_, 1⟩, ⟨.ident "g", 1⟩,
         ⟨.openParen, 1⟩, ⟨.numLit "1", 1⟩, ⟨.comma, 1⟩, ⟨.numLit "2", 1⟩,
         ⟨.closeParen, 1⟩, ⟨.semicolon, 1⟩]) =
      .error ⟨"parse: expected identifier, got \"1\"", some ("f", 1)⟩ := rfl

/-- C7: after `iterate.` the next token must be a literal whose text is one
of 1, 2, 4, 8, 16, 32, 64, 128, 256: a non-literal or a literal outside the
whitelist makes `parseStatement1` return the dedicated error, while a
whitelisted literal is accepted as the unroll count and parsing continues
with the rest of the iterate header (`parseIterateTail`); in particular
`iterate.16 (i T: 0) \x7b \x7d` parses. -/
theorem claim_C7_iterate_unroll_whitelist :
    (∀ (fuel l1 l2 l3 : Nat) (u : TokID) (rest : List Token)
        (fname : String) (ll : Nat),
      u.isLiteral = false →
      parseStatement1 (fuel + 1)
          ⟨⟨.iterate, l1⟩ :: ⟨.dot, l2⟩ :: ⟨u, l3⟩ :: rest, fname, ll⟩ =
        .error (perr ⟨⟨u, l3⟩ :: rest, fname, ll⟩
          ("parse: expected literal unroll count, got " ++ quoted u.text))) ∧
    (∀ (fuel l1 l2 l3 : Nat) (u : TokID) (rest : List Token)
        (fname : String) (ll : Nat),
      u.isLiteral = true →
      unrollWhitelist.contains u.text = false →
      parseStatement1 (fuel + 1)
          ⟨⟨.iterate, l1⟩ :: ⟨.dot, l2⟩ :: ⟨u, l3⟩ :: rest, fname, ll⟩ =
        .error (perr ⟨rest, fname, ll⟩
          ("parse: expected power-of-2 unroll count in [1..256], got " ++
            quoted u.text))) ∧
    (∀ (fuel l1 l2 l3 : Nat) (u : TokID) (rest : List Token)
        (fname : String) (ll : Nat),
      u.isLiteral = true →
      unrollWhitelist.contains u.text = true →
      parseStatement1 (fuel + 1)
          ⟨⟨.iterate, l1⟩ :: ⟨.dot, l2⟩ :: ⟨u, l3⟩ :: rest, fname, ll⟩ =
        parseIterateTail fuel (newExpr {} .zero (some u) none none none [])
          ⟨rest, fname, ll⟩) ∧
    (∃ r, parseStatement1 14 (initState "f"
        [⟨.iterate, 1⟩, ⟨.dot, 1⟩, ⟨.numLit "16", 1⟩, ⟨.openParen, 1⟩,
         ⟨.ident "i", 1⟩, ⟨.ident "T", 1⟩, ⟨.colon, 1⟩, ⟨.numLit "0", 1⟩,
         ⟨.closeParen, 1⟩, ⟨.openCurly, 1⟩, ⟨.closeCurly, 1⟩]) = .ok r) := by
  refine ⟨?_, ?_, ?_, ⟨_, rfl⟩⟩
  · intro fuel l1 l2 l3 u rest fname ll h
    simp [parseStatement1, ParserState.peek1, ParserState.advance, h]
  · intro fuel l1 l2 l3 u rest fname ll h1 h2
    have h2m : u.text ∉ unrollWhitelist := by simpa using h2
    simp [parseStatement1, ParserState.peek1, ParserState.advance, h1, h2m]
  · intro fuel l1 l2 l3 u rest fname ll h1 h2
    have h2m : u.text ∈ unrollWhitelist := by simpa using h2
    simp [parseStatement1, ParserState.peek1, ParserState.advance, h1, h2m]

/-- Witness for C7 at concrete inputs: `iterate.3` is rejected with the
power-of-2 diagnostic and `iterate."16"` (a string literal) is rejected as a
non-literal unroll count. -/
theorem claim_C7_witness :
    (parseStatement1 14
        ⟨[⟨.iterate, 1⟩, ⟨.dot, 1⟩, ⟨.numLit "3", 1⟩, ⟨.openParen, 1⟩,
          ⟨.closeParen, 1⟩, ⟨.openCurly, 1⟩, ⟨.closeCurly, 1⟩], "f", 1⟩ =
      .error (perr ⟨[⟨.openParen, 1⟩, ⟨.closeParen, 1⟩, ⟨.openCurly, 1⟩,
          ⟨.closeCurly, 1⟩], "f", 1⟩
        ("parse: expected power-of-2 unroll count in [1..256], got " ++
          quoted (TokID.numLit "3").text))) ∧
    (parseStatement1 14
        ⟨[⟨.iterate, 1⟩, ⟨.dot, 1⟩, ⟨.strLit "\"16\"", 1⟩], "f", 1⟩ =
      .error (perr ⟨[⟨.strLit "\"16\"", 1⟩], "f", 1⟩
        ("parse: expected literal unroll count, got " ++
          quoted (TokID.strLit "\"16\"").text))) :=
  ⟨claim_C7_iterate_unroll_whitelist.2.1 13 1 1 1 (.numLit "3")
      [⟨.openParen, 1⟩, ⟨.closeParen, 1⟩, ⟨.openCurly, 1⟩, ⟨.closeCurly, 1⟩]
      "f" 1 rfl (by decide),
   claim_C7_iterate_unroll_whitelist.1 13 1 1 1 (.strLit "\"16\"")
      [] "f" 1 rfl⟩

/-- C8: declaring a func whose receiver or name is a built-in identifier
fails with the dedicated naming error immediately after the qualified
identifier is parsed, for every continuation of the token stream (`rest` is
arbitrary), never a generic syntax error: a built-in receiver of a qualified
name, a built-in name of a qualified name whose receiver is legal (the
receiver check comes first in the source), and a built-in unqualified
name. -/
theorem claim_C8_builtin_func_guard :
    (∀ (fuel lv lf lr ld ln2 : Nat) (vis : TokID) (rs nm : String)
        (rest : List Token) (fname : String) (ll : Nat),
      (vis = .pub ∨ vis = .pri) →
      (TokID.ident rs).isBuiltIn = true →
      parseTopLevelDecl (fuel + 1)
          ⟨⟨vis, lv⟩ :: ⟨.func_, lf⟩ :: ⟨.ident rs, lr⟩ :: ⟨.dot, ld⟩ ::
            ⟨.ident nm, ln2⟩ :: rest, fname, ll⟩ =
        .error (perr ⟨rest, fname, ll⟩
          ("parse: built-in " ++ quoted rs ++ " used for func receiver"))) ∧
    (∀ (fuel lv lf lr ld ln2 : Nat) (vis : TokID) (rs nm : String)
        (rest : List Token) (fname : String) (ll : Nat),
      (vis = .pub ∨ vis = .pri) →
      (TokID.ident rs).isBuiltIn = false →
      (TokID.ident nm).isBuiltIn = true →
      parseTopLevelDecl (fuel + 1)
          ⟨⟨vis, lv⟩ :: ⟨.func_, lf⟩ :: ⟨.ident rs, lr⟩ :: ⟨.dot, ld⟩ ::
            ⟨.ident nm, ln2⟩ :: rest, fname, ll⟩ =
        .error (perr ⟨rest, fname, ll⟩
          ("parse: built-in " ++ quoted nm ++ " used for func name"))) ∧
    (∀ (fuel lv lf ln2 : Nat) (vis : TokID) (nm : String)
        (rest : List Token) (fname : String) (ll : Nat),
      (vis = .pub ∨ vis = .pri) →
      (TokID.ident nm).isBuiltIn = true →
      (∀ t : Token, rest.head? = some t → t.id ≠ .dot) →
      parseTopLevelDecl (fuel + 1)
          ⟨⟨vis, lv⟩ :: ⟨.func_, lf⟩ :: ⟨.ident nm, ln2⟩ :: rest, fname, ll⟩ =
        .error (perr ⟨rest, fname, ll⟩
          ("parse: built-in " ++ quoted nm ++ " used for func name"))) := by
  refine ⟨?_, ?_, ?_⟩
  · intro fuel lv lf lr ld ln2 vis rs nm rest fname ll hv hb
    rcases hv with hv | hv <;> subst hv <;>
      simp [parseTopLevelDecl, parseQualifiedIdent, parseIdent, TokID.isIdent,
        ParserState.peek1, ParserState.advance, hb, optText, TokID.text]
  · intro fuel lv lf lr ld ln2 vis rs nm rest fname ll hv hbr hb
    rcases hv with hv | hv <;> subst hv <;>
      simp [parseTopLevelDecl, parseQualifiedIdent, parseIdent, TokID.isIdent,
        ParserState.peek1, ParserState.advance, hbr, hb, optText, TokID.text]
  · intro fuel lv lf ln2 vis nm rest fname ll hv hb hhead
    have hne : (⟨rest, fname, ll⟩ : ParserState).peek1 ≠ some .dot := by
      cases rest with
      | nil => simp [ParserState.peek1]
      | cons t ts =>
        simpa [ParserState.peek1] using hhead t rfl
    simp only [ParserState.peek1] at hne
    rcases hv with hv | hv <;> subst hv <;>
      simp [parseTopLevelDecl, parseQualifiedIdent, parseIdent, TokID.isIdent,
        ParserState.peek1, ParserState.advance, hb, hne, optText, TokID.text]

/-- Witness for C8 at concrete inputs: `pri func u8.foo ...` fails with the
receiver naming error, `pri func foo.u8 ...` (legal receiver, built-in
qualified name) with the name naming error, and `pri func u8 ...` with the
name naming error, for an empty continuation. -/
theorem claim_C8_witness :
    (parseTopLevelDecl 8
        ⟨[⟨.pri, 1⟩, ⟨.func_, 1⟩, ⟨.ident "u8", 1⟩, ⟨.dot, 1⟩, ⟨.ident "foo", 1⟩],
          "f", 1⟩ =
      .error (perr ⟨[], "f", 1⟩
        ("parse: built-in " ++ quoted "u8" ++ " used for func receiver"))) ∧
    (parseTopLevelDecl 8
        ⟨[⟨.pri, 1⟩, ⟨.func_, 1⟩, ⟨.ident "foo", 1⟩, ⟨.dot, 1⟩, ⟨.ident "u8", 1⟩],
          "f", 1⟩ =
      .error (perr ⟨[], "f", 1⟩
        ("parse: built-in " ++ quoted "u8" ++ " used for func name"))) ∧
    (parseTopLevelDecl 8
        ⟨[⟨.pri, 1⟩, ⟨.func_, 1⟩, ⟨.ident "u8", 1⟩], "f", 1⟩ =
      .error (perr ⟨[], "f", 1⟩
        ("parse: built-in " ++ quoted "u8" ++ " used for func name"))) :=
  ⟨claim_C8_builtin_func_guard.1 7 1 1 1 1 1 .pri "u8" "foo" [] "f" 1
      (Or.inr rfl) (by decide),
   claim_C8_builtin_func_guard.2.1 7 1 1 1 1 1 .pri "foo" "u8" [] "f" 1
      (Or.inr rfl) (by decide) (by decide),
   claim_C8_builtin_func_guard.2.2 7 1 1 1 .pri "u8" [] "f" 1
      (Or.inr rfl) (by decide) (fun t ht => by simp at ht)⟩

theorem errPositioned_perr (s : ParserState) (m : String) : errPositioned (perr s m) :=
  Or.inl rfl

theorem errPositioned_fuelErr (s : ParserState) : errPositioned (fuelErr s) :=
  Or.inl rfl

theorem errPositioned_packageidErr (raw : String) : errPositioned (packageidErr raw) :=
  Or.inr ⟨raw, rfl⟩

theorem parseIdent_EG :
    ∀ (s : ParserState) (e : Err), parseIdent s = .error e → errPositioned e := by
  intro s e h
  simp only [parseIdent] at h
  repeat' split at h
  all_goals try cases h
  all_goals exact Or.inl rfl

theorem parseQualifiedIdent_EG :
    ∀ (s : ParserState) (e : Err), parseQualifiedIdent s = .error e → errPositioned e := by
  intro s e h
  simp only [parseQualifiedIdent] at h
  repeat' split at h
  all_goals try cases h
  all_goals solve_by_elim [parseIdent_EG]

theorem parseLabel_EG :
    ∀ (s : ParserState) (e : Err), parseLabel s = .error e → errPositioned e := by
  intro s e h
  simp only [parseLabel] at h
  repeat' split at h
  all_goals try cases h
  all_goals solve_by_elim [parseIdent_EG]

theorem assertsSortedLoop_EG :
    ∀ (ns : List Node) (s : ParserState) (si sp : Bool) (e : Err),
      assertsSortedLoop s si sp ns = .error e → errPositioned e := by
  intro ns
  induction ns with
  | nil => intro s si sp e h; simp [assertsSortedLoop] at h
  | cons a rest ih =>
    intro s si sp e h
    simp only [assertsSortedLoop] at h
    repeat' split at h
    all_goals try cases h
    all_goals solve_by_elim [errPositioned_perr]

theorem assertsSorted_EG :
    ∀ (s : ParserState) (ns : List Node) (e : Err),
      assertsSorted s ns = .error e → errPositioned e := by
  intro s ns e h
  exact assertsSortedLoop_EG ns s false false e h

theorem parseListLoop_EG :
    ∀ (pe : ParserState → Except Err (Node × ParserState)),
      (∀ (st : ParserState) (e : Err), pe st = .error e → errPositioned e) →
      ∀ (fuel : Nat) (stop : TokID) (acc : List Node) (s : ParserState) (e : Err),
        parseListLoop fuel stop pe acc s = .error e → errPositioned e := by
  intro pe hpe fuel
  induction fuel with
  | zero =>
    intro stop acc s e h
    simp only [parseListLoop] at h
    cases h
    exact Or.inl rfl
  | succ fuel ih =>
    intro stop acc s e h
    simp only [parseListLoop] at h
    repeat' split at h
    all_goals try cases h
    all_goals solve_by_elim [errPositioned_perr]

theorem parseList_EG :
    ∀ (pe : ParserState → Except Err (Node × ParserState)),
      (∀ (st : ParserState) (e : Err), pe st = .error e → errPositioned e) →
      ∀ (fuel : Nat) (stop : TokID) (s : ParserState) (e : Err),
        parseList fuel stop pe s = .error e → errPositioned e := by
  intro pe hpe fuel stop s e h
  simp only [parseList] at h
  repeat' split at h
  all_goals try cases h
  all_goals solve_by_elim [errPositioned_perr, parseListLoop_EG]

theorem parseBracketClose_EG :
    ∀ (sep : TokID) (ei ej : Option Node) (s : ParserState) (e : Err),
      parseBracketClose sep ei ej s = .error e → errPositioned e := by
  intro sep ei ej s e h
  simp only [parseBracketClose] at h
  repeat' split at h
  all_goals try cases h
  all_goals exact Or.inl rfl

theorem ite_EG {α : Type} {c : Prop} [Decidable c] {a b : Except Err α} {e : Err}
    (heq : (if c then a else b) = .error e)
    (ha : ∀ e, a = .error e → errPositioned e)
    (hb : ∀ e, b = .error e → errPositioned e) :
    errPositioned e := by
  split at heq
  · exact ha e heq
  · exact hb e heq

set_option maxHeartbeats 12800000 in
theorem parsers_EG :
    ∀ fuel : Nat,
      (∀ s e, parseExpr fuel s = .error e → errPositioned e) ∧
      (∀ x args s e, parseAssocArgs fuel x args s = .error e → errPositioned e) ∧
      (∀ s e, parseOperand fuel s = .error e → errPositioned e) ∧
      (∀ s e, parseOperandIdent fuel s = .error e → errPositioned e) ∧
      (∀ lhs s e, parseOperandRest fuel lhs s = .error e → errPositioned e) ∧
      (∀ sep s e, parseBracket fuel sep s = .error e → errPositioned e) ∧
      (∀ sep ei s e, parseBracketSep fuel sep ei s = .error e → errPositioned e) ∧
      (∀ s e, parseTypeExpr fuel s = .error e → errPositioned e) ∧
      (∀ s e, parseStatement fuel s = .error e → errPositioned e) ∧
      (∀ s e, parseStatement1 fuel s = .error e → errPositioned e) ∧
      (∀ u s e, parseIterateTail fuel u s = .error e → errPositioned e) ∧
      (∀ s e, parseAsserts fuel s = .error e → errPositioned e) ∧
      (∀ s e, parseIf fuel s = .error e → errPositioned e) ∧
      (∀ s e, parseAssertNode fuel s = .error e → errPositioned e) ∧
      (∀ s e, parseArgNode fuel s = .error e → errPositioned e) ∧
      (∀ s e, parseFieldNode fuel s = .error e → errPositioned e) ∧
      (∀ s e, parseExprNode fuel s = .error e → errPositioned e) ∧
      (∀ s e, parseIterateVariableNode fuel s = .error e → errPositioned e) ∧
      (∀ b s e, parseVar fuel b s = .error e → errPositioned e) ∧
      (∀ s e, parseTryExpr fuel s = .error e → errPositioned e) ∧
      (∀ s e, parseDollarExpr fuel s = .error e → errPositioned e) ∧
      (∀ s e, parseBlock fuel s = .error e → errPositioned e) ∧
      (∀ acc s e, parseBlockLoop fuel acc s = .error e → errPositioned e) ∧
      (∀ s e, parseTopLevelDecl fuel s = .error e → errPositioned e) := by
  intro fuel
  induction fuel with
  | zero =>
    refine ⟨?_, ?_, ?_, ?_, ?_, ?_, ?_, ?_, ?_, ?_, ?_, ?_, ?_, ?_, ?_, ?_, ?_,
      ?_, ?_, ?_, ?_, ?_, ?_, ?_⟩
    all_goals intros
    all_goals rename_i h
    all_goals simp_all [parseExpr, parseAssocArgs, parseOperand, parseOperandIdent,
      parseOperandRest, parseBracket, parseBracketSep, parseTypeExpr, parseStatement,
      parseStatement1,
      parseIterateTail, parseAsserts, parseIf, parseAssertNode, parseArgNode,
      parseFieldNode, parseExprNode, parseIterateVariableNode, parseVar,
      parseTryExpr, parseDollarExpr, parseBlock, parseBlockLoop, parseTopLevelDecl,
      errPositioned, fuelErr]
    all_goals subst h
    all_goals exact Or.inl rfl
  | succ fuel ih =>
    obtain ⟨ihExpr, ihAssoc, ihOperand, ihOperandIdent, ihOperandRest, ihBracket,
      ihBracketSep, ihTypeExpr, ihStatement, ihStatement1, ihIterTail, ihAsserts, ihIf,
      ihAssertNode, ihArgNode, ihFieldNode, ihExprNode, ihIterVar, ihVar,
      ihTryExpr, ihDollar, ihBlock, ihBlockLoop, ihTopLevel⟩ := ih
    have hExpr : ∀ s e, parseExpr (fuel + 1) s = .error e → errPositioned e := by
      intro s e h
      simp only [parseExpr] at h
      repeat' split at h
      all_goals try cases h
      all_goals first
        | exact Or.inl rfl
        | solve_by_elim [ihOperand, ihTypeExpr, ihAssoc]
        | exact ite_EG (by assumption) (ihTypeExpr _) (ihOperand _)
        | simp_all [TokID.binaryForm, TokID.associativeForm]
    have hAssoc : ∀ x args s e, parseAssocArgs (fuel + 1) x args s = .error e →
        errPositioned e := by
      intro x args s e h
      simp only [parseAssocArgs] at h
      repeat' split at h
      all_goals try cases h
      all_goals solve_by_elim [ihOperand, ihAssoc]
    have hOperand : ∀ s e, parseOperand (fuel + 1) s = .error e → errPositioned e := by
      intro s e h
      simp only [parseOperand] at h
      repeat' split at h
      all_goals try cases h
      all_goals first
        | exact Or.inl rfl
        | solve_by_elim [ihOperand, ihExpr, ihOperandIdent]
        | simp_all [TokID.unaryForm]
    have hOperandIdent : ∀ s e, parseOperandIdent (fuel + 1) s = .error e →
        errPositioned e := by
      intro s e h
      simp only [parseOperandIdent] at h
      repeat' split at h
      all_goals try cases h
      all_goals solve_by_elim [parseIdent_EG, ihOperandRest]
    have hOperandRest : ∀ lhs s e, parseOperandRest (fuel + 1) lhs s = .error e →
        errPositioned e := by
      intro lhs s e h
      simp only [parseOperandRest] at h
      repeat' split at h
      all_goals try cases h
      all_goals solve_by_elim [parseList_EG, ihArgNode, ihBracket, parseIdent_EG,
        ihOperandRest]
    have hBracket : ∀ sep s e, parseBracket (fuel + 1) sep s = .error e →
        errPositioned e := by
      intro sep s e h
      simp only [parseBracket] at h
      repeat' split at h
      all_goals try cases h
      all_goals first
        | exact Or.inl rfl
        | solve_by_elim [ihExpr, ihBracketSep]
    have hBracketSep : ∀ sep ei s e, parseBracketSep (fuel + 1) sep ei s = .error e →
        errPositioned e := by
      intro sep ei s e h
      simp only [parseBracketSep] at h
      repeat' split at h
      all_goals try cases h
      all_goals first
        | exact Or.inl rfl
        | solve_by_elim [ihExpr, parseBracketClose_EG]
    have hTypeExpr : ∀ s e, parseTypeExpr (fuel + 1) s = .error e →
        errPositioned e := by
      intro s e h
      simp only [parseTypeExpr] at h
      repeat' split at h
      all_goals try cases h
      all_goals first
        | exact Or.inl rfl
        | solve_by_elim [ihExpr, ihTypeExpr, parseQualifiedIdent_EG, ihBracket]
    have hStatement1 : ∀ s e, parseStatement1 (fuel + 1) s = .error e →
        errPositioned e := by
      intro s e h
      simp only [parseStatement1] at h
      repeat' split at h
      all_goals try cases h
      all_goals first
        | exact Or.inl rfl
        | solve_by_elim [ihAssertNode, parseLabel_EG, ihIf, ihIterTail, ihExpr,
            ihVar, ihAsserts, ihBlock]
    have hStatement : ∀ s e, parseStatement (fuel + 1) s = .error e →
        errPositioned e := by
      intro s e h
      simp only [parseStatement] at h
      repeat' split at h
      all_goals try cases h
      all_goals solve_by_elim [hStatement1]
    have hIterTail : ∀ u s e, parseIterateTail (fuel + 1) u s = .error e →
        errPositioned e := by
      intro u s e h
      simp only [parseIterateTail] at h
      repeat' split at h
      all_goals try cases h
      all_goals solve_by_elim [parseLabel_EG, parseList_EG, ihIterVar, ihAsserts,
        ihBlock]
    have hAsserts : ∀ s e, parseAsserts (fuel + 1) s = .error e →
        errPositioned e := by
      intro s e h
      simp only [parseAsserts] at h
      repeat' split at h
      all_goals try cases h
      all_goals solve_by_elim [parseList_EG, ihAssertNode, assertsSorted_EG]
    have hIf : ∀ s e, parseIf (fuel + 1) s = .error e → errPositioned e := by
      intro s e h
      simp only [parseIf] at h
      repeat' split at h
      all_goals try cases h
      all_goals first
        | exact Or.inl rfl
        | solve_by_elim [ihExpr, ihBlock, ihIf]
    have hAssertNode : ∀ s e, parseAssertNode (fuel + 1) s = .error e →
        errPositioned e := by
      intro s e h
      simp only [parseAssertNode] at h
      repeat' split at h
      all_goals try cases h
      all_goals first
        | exact Or.inl rfl
        | solve_by_elim [ihExpr, parseList_EG, ihArgNode]
    have hArgNode : ∀ s e, parseArgNode (fuel + 1) s = .error e →
        errPositioned e := by
      intro s e h
      simp only [parseArgNode] at h
      repeat' split at h
      all_goals try cases h
      all_goals first
        | exact Or.inl rfl
        | solve_by_elim [parseIdent_EG, ihExpr]
    have hFieldNode : ∀ s e, parseFieldNode (fuel + 1) s = .error e →
        errPositioned e := by
      intro s e h
      simp only [parseFieldNode] at h
      repeat' split at h
      all_goals try cases h
      all_goals solve_by_elim [parseIdent_EG, ihTypeExpr, ihExpr]
    have hExprNode : ∀ s e, parseExprNode (fuel + 1) s = .error e →
        errPositioned e := by
      intro s e h
      simp only [parseExprNode] at h
      solve_by_elim [ihExpr]
    have hVar : ∀ b s e, parseVar (fuel + 1) b s = .error e → errPositioned e := by
      intro b s e h
      simp only [parseVar] at h
      repeat' split at h
      all_goals try cases h
      all_goals first
        | exact Or.inl rfl
        | solve_by_elim [parseIdent_EG, ihTypeExpr, ihExpr, ihTryExpr]
    have hIterVar : ∀ s e, parseIterateVariableNode (fuel + 1) s = .error e →
        errPositioned e := by
      intro s e h
      simp only [parseIterateVariableNode] at h
      solve_by_elim [hVar]
    have hTryExpr : ∀ s e, parseTryExpr (fuel + 1) s = .error e →
        errPositioned e := by
      intro s e h
      simp only [parseTryExpr] at h
      repeat' split at h
      all_goals try cases h
      all_goals first
        | exact Or.inl rfl
        | solve_by_elim [ihExpr]
    have hDollar : ∀ s e, parseDollarExpr (fuel + 1) s = .error e →
        errPositioned e := by
      intro s e h
      simp only [parseDollarExpr] at h
      repeat' split at h
      all_goals try cases h
      all_goals first
        | exact Or.inl rfl
        | solve_by_elim [parseList_EG, ihExprNode]
    have hBlockLoop : ∀ acc s e, parseBlockLoop (fuel + 1) acc s = .error e →
        errPositioned e := by
      intro acc s e h
      simp only [parseBlockLoop] at h
      repeat' split at h
      all_goals try cases h
      all_goals first
        | exact Or.inl rfl
        | solve_by_elim [ihStatement, ihBlockLoop]
    have hBlock : ∀ s e, parseBlock (fuel + 1) s = .error e → errPositioned e := by
      intro s e h
      simp only [parseBlock] at h
      repeat' split at h
      all_goals try cases h
      all_goals first
        | exact Or.inl rfl
        | solve_by_elim [hBlockLoop]
    have hTopLevel : ∀ s e, parseTopLevelDecl (fuel + 1) s = .error e →
        errPositioned e := by
      intro s e h
      simp only [parseTopLevelDecl] at h
      repeat' split at h
      all_goals try cases h
      all_goals first
        | exact Or.inl rfl
        | exact Or.inr ⟨_, rfl⟩
        | solve_by_elim [parseIdent_EG, parseQualifiedIdent_EG, ihTypeExpr,
            ihDollar, ihExpr, parseList_EG, ihFieldNode, ihAssertNode, ihAsserts,
            ihBlock, assertsSorted_EG]
        | exact ite_EG (by assumption) (ihDollar _) (ihExpr _)
    exact ⟨hExpr, hAssoc, hOperand, hOperandIdent, hOperandRest, hBracket,
      hBracketSep, hTypeExpr, hStatement, hStatement1, hIterTail, hAsserts, hIf, hAssertNode,
      hArgNode, hFieldNode, hExprNode, hIterVar, hVar, hTryExpr, hDollar, hBlock,
      hBlockLoop, hTopLevel⟩

theorem parseExpr_EG :
    ∀ (fuel : Nat) (s : ParserState) (e : Err),
      parseExpr fuel s = .error e → errPositioned e :=
  fun fuel => (parsers_EG fuel).1

theorem parseTopLevelDecl_EG :
    ∀ (fuel : Nat) (s : ParserState) (e : Err),
      parseTopLevelDecl fuel s = .error e → errPositioned e :=
  fun fuel =>
    (parsers_EG fuel).2.2.2.2.2.2.2.2.2.2.2.2.2.2.2.2.2.2.2.2.2.2.2

theorem parseFileLoop_EG :
    ∀ (fuel : Nat) (acc : List Node) (s : ParserState) (e : Err),
      parseFileLoop fuel acc s = .error e → errPositioned e := by
  intro fuel
  induction fuel with
  | zero =>
    intro acc s e h
    simp only [parseFileLoop] at h
    cases h
    exact Or.inl rfl
  | succ fuel ih =>
    intro acc s e h
    simp only [parseFileLoop] at h
    repeat' split at h
    all_goals try cases h
    all_goals solve_by_elim [parseTopLevelDecl_EG]

theorem parseFile_EG :
    ∀ (fuel : Nat) (s : ParserState) (e : Err),
      parseFile fuel s = .error e → errPositioned e := by
  intro fuel s e h
  simp only [parseFile] at h
  repeat' split at h
  all_goals try cases h
  all_goals solve_by_elim [parseFileLoop_EG]

/-- C9 (amended): every error returned by the `Parse` and `ParseExpr` entry
points carries the `at <filename>:<line>` position, except the two
`is not a valid packageid` diagnostics, which omit it. -/
theorem claim_C9_errors_positioned :
    (∀ (fuel : Nat) (fname : String) (src : List Token) (e : Err),
      Parse fuel fname src = .error e → errPositioned e) ∧
    (∀ (fuel : Nat) (fname : String) (src : List Token) (e : Err),
      ParseExpr fuel fname src = .error e → errPositioned e) := by
  constructor
  · intro fuel fname src e h
    simp only [Parse] at h
    repeat' split at h
    all_goals try cases h
    all_goals solve_by_elim [parseFile_EG]
  · intro fuel fname src e h
    simp only [ParseExpr] at h
    repeat' split at h
    all_goals try cases h
    all_goals solve_by_elim [parseExpr_EG]

/-- Witness for C9 at a concrete failing input: the expected-identifier
error of `ParseExpr` on the empty stream is positioned. -/
theorem claim_C9_witness :
    errPositioned ⟨"parse: expected identifier", some ("f", 0)⟩ :=
  claim_C9_errors_positioned.2 5 "f" [] _ rfl

/-- C9 counterexample to the claim as stated: a `packageid` declaration with
an invalid package id makes `Parse` return an error with no
`at <filename>:<line>` position. -/
theorem claim_C9_counterexample :
    Parse 6 "f" [⟨.packageid, 1⟩, ⟨.strLit "\"no/good\"", 1⟩, ⟨.semicolon, 1⟩] =
      .error ⟨"parse: \"no/good\" is not a valid packageid", none⟩ ∧
    (⟨"parse: \"no/good\" is not a valid packageid", none⟩ : Err).pos = none :=
  ⟨rfl, rfl⟩
